import Mathlib

/-!
Verification of the UrbanMobility repository (geospatial bike-sharing analysis).

Shallow embedding of the repository's tabular/geospatial pipeline:

* a pandas/geopandas table is a `Frame`: an ordered list of rows, each row an
  association list from column names to cell values (`Val`), together with the
  column list, an optional CRS string and an optional index column;
* cell values model floats as exact rationals extended with signed infinities
  and NaN (numpy float semantics for the divisions the code performs);
* geometries are modeled by what the code observes of them: a point is a
  coordinate pair, a polygon is the (finite, abstract) set of points its
  interior contains plus its area — the point-in-polygon and area primitives
  are external collaborators in the source (shapely/geopandas);
* the reprojection engine (`pyproj`, behind `GeoDataFrame.to_crs`) is an
  external collaborator and is passed in as an explicit parameter `Reproj`;
* Python exceptions become `Except PyErr`.

The English pipeline (`src/src/helpers.py`, `src/src/data_processing.py`,
`src/src/indicators.py`) is embedded in namespace `EN`, the Norwegian pipeline
(`src/helpers.py`, `src/src/data_prosessering.py`, `src/indikatorer.py`) in
namespace `NO`.
-/

set_option maxHeartbeats 1000000

/-! Kernel-computable arithmetic and string helpers. Exact rational arithmetic
(via `mkRat`, which normalizes) stands in for float arithmetic; ASCII
upper-casing and whitespace-trimming stand in for Python's `.upper()` /
`.strip()` (every CRS code handled by the repository is ASCII). These exist
because the library's `Rat.add`-style operations and `String.toUpper` do not
reduce in the kernel, which the concrete evaluation theorems below need. -/

def qadd (a b : ℚ) : ℚ := mkRat (a.num * b.den + b.num * a.den) (a.den * b.den)

def qsub (a b : ℚ) : ℚ := mkRat (a.num * b.den - b.num * a.den) (a.den * b.den)

def qmul (a b : ℚ) : ℚ := mkRat (a.num * b.num) (a.den * b.den)

def qdiv (a b : ℚ) : ℚ :=
  if 0 ≤ b.num then mkRat (a.num * (b.den : Int)) (a.den * b.num.natAbs)
  else mkRat (-(a.num * (b.den : Int))) (a.den * b.num.natAbs)

/-- `0 < a`, decidably on the normalized representation. -/
def qpos (a : ℚ) : Bool := 0 < a.num

/-- ASCII upper-casing of one character. -/
def upChar (c : Char) : Char :=
  if 97 ≤ c.toNat ∧ c.toNat ≤ 122 then Char.ofNat (c.toNat - 32) else c

/-- Python `str.upper()` (ASCII fragment). -/
def upStr (s : String) : String := ⟨s.data.map upChar⟩

/-- Python `str.strip()`. -/
def trimStr (s : String) : String :=
  ⟨((s.data.dropWhile Char.isWhitespace).reverse.dropWhile Char.isWhitespace).reverse⟩

/-- Python `str.startswith(pre)`. -/
def startsWithStr (s pre : String) : Bool := pre.data.isPrefixOf s.data

/-- Geometry as observed by the repository code: points carry coordinates;
polygons carry the set of points they (strictly) contain — the abstraction of
shapely's `within` predicate used by `gpd.sjoin(..., predicate="within")` —
and their area, the abstraction of `geometry.area`. -/
inductive Geom where
  | point (x y : ℚ)
  | poly (pts : List (ℚ × ℚ)) (area : ℚ)
deriving DecidableEq, Repr

/-- `geometry.area` for a single geometry: polygons report their area, points
have zero area (shapely). -/
def Geom.areaOf : Geom → ℚ
  | .point _ _ => 0
  | .poly _ a => a

/-- A cell value: an exact numeric value, a signed infinity, NaN (which also
models pandas missing values / NA), a string, or a geometry. -/
inductive Val where
  | num (q : ℚ)
  | inf (pos : Bool)
  | nan
  | str (s : String)
  | geom (g : Geom)
deriving DecidableEq, Repr

/-- Elementwise `+` with numpy float semantics on the cases the code can
produce (NaN propagates; opposite infinities give NaN). Non-numeric operands
never occur on the executed paths; they yield NaN. -/
def Val.add : Val → Val → Val
  | .num a, .num b => .num (qadd a b)
  | .num _, .inf p => .inf p
  | .inf p, .num _ => .inf p
  | .inf p, .inf q => if p = q then .inf p else .nan
  | _, _ => .nan

/-- Elementwise `-` with numpy float semantics (same conventions as `Val.add`). -/
def Val.sub : Val → Val → Val
  | .num a, .num b => .num (qsub a b)
  | .num _, .inf p => .inf (!p)
  | .inf p, .num _ => .inf p
  | .inf p, .inf q => if p = q then .nan else .inf p
  | _, _ => .nan

/-- Elementwise `*` with numpy float semantics (`0 * inf = nan`). -/
def Val.mul : Val → Val → Val
  | .num a, .num b => .num (qmul a b)
  | .inf p, .num b => if b = 0 then .nan else .inf (p = qpos b)
  | .num a, .inf p => if a = 0 then .nan else .inf (p = qpos a)
  | .inf p, .inf q => .inf (p = q)
  | _, _ => .nan

/-- Elementwise `/` with numpy float semantics: division by zero yields a
signed infinity, `0/0` yields NaN, NaN propagates. This is where the
unguarded divisions of the indicator code produce non-finite values. -/
def Val.div : Val → Val → Val
  | .num a, .num b =>
      if b = 0 then (if a = 0 then .nan else .inf (qpos a)) else .num (qdiv a b)
  | .num _, .inf _ => .num 0
  | .inf p, .num b => if b = 0 then .inf p else .inf (p = qpos b)
  | .inf _, .inf _ => .nan
  | _, _ => .nan

/-- The comparison `x > 0` as pandas evaluates it on a float column
(`NaN > 0` is `False`). -/
def Val.gtZero : Val → Bool
  | .num a => qpos a
  | .inf p => p
  | _ => false

/-- `geometry.area` lifted to cell values. -/
def Val.areaVal : Val → Val
  | .geom g => .num g.areaOf
  | _ => .nan

/-- The `within` predicate of `gpd.sjoin(..., predicate="within")`: a point is
within a polygon iff the polygon's interior contains it. -/
def within (p d : Val) : Bool :=
  match p, d with
  | .geom (.point x y), .geom (.poly pts _) => decide ((x, y) ∈ pts)
  | _, _ => false

/-- Python exception kinds raised by the repository code. -/
inductive PyErr where
  | keyError (msg : String)
  | valueError (msg : String)
  | typeError (msg : String)
deriving DecidableEq, Repr

/-- A table row: an association list from column names to values. Lookup and
update act on the first matching key, as column names are unique in every
frame the code builds. -/
abbrev Row := List (String × Val)

/-- Read a cell. A key that is absent yields NaN; frame-level operations check
column existence before reading, mirroring pandas `KeyError` behaviour, so
this default is never observed on the executed paths. -/
def Row.get : Row → String → Val
  | [], _ => Val.nan
  | p :: r, c => if p.1 = c then p.2 else Row.get r c

/-- Write a cell: replace the first binding of the key, or append a new
binding if the key is absent. -/
def Row.set : Row → String → Val → Row
  | [], c, v => [(c, v)]
  | p :: r, c, v => if p.1 = c then (c, v) :: r else p :: Row.set r c v

@[simp] theorem Row.get_set (r : Row) (c c' : String) (v : Val) :
    (r.set c v).get c' = if c = c' then v else r.get c' := by
  induction r with
  | nil =>
      simp only [Row.set, Row.get]
  | cons p r ih =>
      simp only [Row.set]
      by_cases hp : p.1 = c
      · by_cases h : c = c' <;> simp [Row.get, hp, h]
      · simp only [if_neg hp, Row.get]
        by_cases h : p.1 = c'
        · have hne : ¬ c = c' := fun hc => hp (h.trans hc.symm)
          simp [h, hne]
        · simp [h, ih]

/-- A pandas `DataFrame` / geopandas `GeoDataFrame`: ordered rows, the list of
column names, the CRS (`None` or a code string, holding what `str(gdf.crs)`
prints), and the optional index column set by `set_index` (index values stay
stored in the rows under that name; the name is removed from `cols`). -/
structure Frame where
  cols : List String
  rows : List Row
  crs : Option String
  index : Option String
deriving DecidableEq, Repr

/-- `str(gdf.crs)`: Python's `str(None)` is the string `"None"`. -/
def crsStr : Option String → String
  | none => "None"
  | some s => s

/-- The external reprojection engine (`pyproj`, called through
`GeoDataFrame.to_crs`): given source and target CRS codes it transforms a
geometry or fails. The repository treats it as a black box. -/
abbrev Reproj := String → String → Geom → Except String Geom

/-- Error-propagating map (the effect of `to_crs` over the row list): stops at
the first engine failure. -/
def mapME {e a b : Type} (f : a → Except e b) : List a → Except e (List b)
  | [] => .ok []
  | x :: l =>
    match f x with
    | .error err => .error err
    | .ok y =>
      match mapME f l with
      | .error err => .error err
      | .ok ys => .ok (y :: ys)

/-- `to_crs` on one row: the geometry cell is transformed, every other cell is
untouched. (On the executed paths the geometry column always holds a
geometry.) -/
def reprojRow (eng : Reproj) (src tgt : String) (r : Row) : Except String Row :=
  match r.get "geometry" with
  | .geom g => (eng src tgt g).map (fun g2 => r.set "geometry" (Val.geom g2))
  | _ => .ok r

/-- Comma-joined column list for error messages. -/
def joinCols (cs : List String) : String := String.intercalate ", " cs

/-- The value an index-keyed count series contributes to a joined row: the
group's count, or NaN when the key has no group. -/
def lookupCount (s : List (Val × ℚ)) (key : Val) : Val :=
  match s.find? (fun p => decide (p.1 = key)) with
  | some p => Val.num p.2
  | none => Val.nan

namespace Frame

/-- `df[c] = <rowwise expression>`: checked column assignment where the
expression reads the columns `deps` of the same frame (pandas raises
`KeyError` when a read column is absent). Column arithmetic in pandas is
index-aligned, and both sides always come from the same frame in this code,
so it is exactly a rowwise map. -/
def setColExpr (f : Frame) (c : String) (deps : List String) (g : Row → Val) :
    Except PyErr Frame :=
  if deps.all (fun d => decide (d ∈ f.cols)) then
    .ok { f with cols := if c ∈ f.cols then f.cols else f.cols ++ [c],
                 rows := f.rows.map (fun r => r.set c (g r)) }
  else
    .error (.keyError (let m := joinCols deps; s!"column missing among {m}"))

/-- `df[c] = <scalar>`: broadcast assignment, never fails. -/
def setColScalar (f : Frame) (c : String) (v : Val) : Frame :=
  { f with cols := if c ∈ f.cols then f.cols else f.cols ++ [c],
           rows := f.rows.map (fun r => r.set c v) }

/-- `df.loc[mask, c] = <rowwise expression>`: masked assignment; reads of
`deps` are checked like any pandas column read. -/
def setColMasked (f : Frame) (c : String) (deps : List String)
    (mask : Row → Bool) (g : Row → Val) : Except PyErr Frame :=
  if deps.all (fun d => decide (d ∈ f.cols)) then
    .ok { f with rows := f.rows.map (fun r => if mask r then r.set c (g r) else r) }
  else
    .error (.keyError (let m := joinCols deps; s!"column missing among {m}"))

/-- `df[c] = arr.values`: positional assignment of a raw value array. pandas
raises `ValueError` when the array length differs from the frame length —
this is the length guard that claim C8 is about. -/
def setColVals (f : Frame) (c : String) (vs : List Val) : Except PyErr Frame :=
  if vs.length = f.rows.length then
    .ok { f with cols := if c ∈ f.cols then f.cols else f.cols ++ [c],
                 rows := List.zipWith (fun r v => r.set c v) f.rows vs }
  else
    .error (.valueError
      s!"Length of values ({toString vs.length}) does not match length of index ({toString f.rows.length})")

/-- `df.set_index(c)`: the column becomes the index (removed from `cols`, its
values stay in the rows). -/
def setIndex (f : Frame) (c : String) : Except PyErr Frame :=
  if c ∈ f.cols then
    .ok { f with cols := f.cols.filter (fun x => decide (x ≠ c)), index := some c }
  else
    .error (.keyError s!"{c} not found in columns")

/-- `df[[c1, ..., ck]]`: column selection (the index is kept). Rows are rebuilt
so that deselected columns really disappear. -/
def select (f : Frame) (cs : List String) : Except PyErr Frame :=
  if cs.all (fun d => decide (d ∈ f.cols)) then
    .ok { f with cols := cs,
                 rows := f.rows.map (fun r =>
                   (match f.index with
                    | some ic => [(ic, r.get ic)]
                    | none => []) ++ cs.map (fun c => (c, r.get c))) }
  else
    .error (.keyError (let m := joinCols cs; s!"not all of {m} are in the columns"))

/-- `df.fillna(0)`: every NaN data cell becomes 0 (the index is not filled). -/
def fillna0 (f : Frame) : Frame :=
  { f with rows := f.rows.map (fun r => r.map (fun p =>
      (p.1, if some p.1 ≠ f.index ∧ p.2 = Val.nan then Val.num 0 else p.2))) }

/-- `df[[c1, c2]] = df[[c1, c2]].fillna(0)`: fill NaN with 0 in the named
columns; pandas raises `KeyError` when any of the named columns is absent —
the very error the English `buildingindicators` runs into. -/
def fillnaCols (f : Frame) (cs : List String) : Except PyErr Frame :=
  if cs.all (fun d => decide (d ∈ f.cols)) then
    .ok { f with rows := f.rows.map (fun r => r.map (fun p =>
        (p.1, if p.1 ∈ cs ∧ p.2 = Val.nan then Val.num 0 else p.2))) }
  else
    .error (.keyError (let m := joinCols cs; s!"None of {m} are in the columns"))

/-- `df.join(series)` for an index-keyed count series (the result of
`groupby(...).size().rename(name)`): looks the row's index value up among the
group keys; rows without a matching group get NaN. pandas raises `ValueError`
when the series name collides with an existing column. -/
def joinCounts (f : Frame) (name : String) (s : List (Val × ℚ)) :
    Except PyErr Frame :=
  if name ∈ f.cols then
    .error (.valueError s!"columns overlap but no suffix specified: {name}")
  else
    .ok { f with cols := f.cols ++ [name],
                 rows := f.rows.map (fun r =>
                   r ++ [(name, lookupCount s (match f.index with
                     | some ic => r.get ic
                     | none => Val.nan))]) }

/-- `left.merge(right, on=c, how="left")` where the key column of `right` has
pairwise-distinct values (it always comes from a `groupby`, whose keys are
distinct): each left row gets the matching right row's other columns, or NaN
in all of them when no right row matches. The non-key columns of the two
frames are disjoint on every call in the source. -/
def mergeLeft (f g : Frame) (key : String) : Except PyErr Frame :=
  if key ∈ f.cols ∧ key ∈ g.cols then
    .ok { f with cols := f.cols ++ g.cols.filter (fun x => decide (x ≠ key)),
                 rows := f.rows.map (fun r =>
                   match g.rows.find? (fun a => decide (a.get key = r.get key)) with
                   | some a => r ++ (g.cols.filter (fun x => decide (x ≠ key))).map
                       (fun c => (c, a.get c))
                   | none => r ++ (g.cols.filter (fun x => decide (x ≠ key))).map
                       (fun c => (c, Val.nan))) }
  else
    .error (.keyError s!"merge key {key} missing")

end Frame

/-- The distinct non-NaN values of column `c` in row order — the group keys of
`df.groupby(c)` (pandas drops NaN keys; key order is irrelevant here because
groups are only ever looked up by key). -/
def distinctKeys (rows : List Row) (c : String) : List Val :=
  (rows.map (fun r => r.get c)).foldl
    (fun acc v => if v = Val.nan ∨ v ∈ acc then acc else acc ++ [v]) []

/-- `df.groupby(c).size()`: group sizes keyed by the distinct non-NaN values
of `c`. pandas raises `KeyError` when the grouping column is absent. -/
def groupSizes (f : Frame) (c : String) : Except PyErr (List (Val × ℚ)) :=
  if c ∈ f.cols then
    .ok ((distinctKeys f.rows c).map (fun k =>
      (k, mkRat ((f.rows.filter (fun r => decide (r.get c = k))).length : Int) 1)))
  else
    .error (.keyError s!"{c} not found in columns")

/-- Sum of a numeric column over a list of rows (`("area", "sum")` in a
groupby aggregation); exact rational arithmetic stands in for float sums. -/
def sumCol (rows : List Row) (c : String) : Val :=
  rows.foldl (fun acc r => Val.add acc (r.get c)) (Val.num 0)

/-- `df.groupby(c).agg(n1=("geometry", "size"), n2=(ac, "sum")).reset_index()`:
the per-group count and column sum, as a frame keyed by `c`. pandas raises
`KeyError` when the grouping or aggregated column is absent. -/
def groupAgg (f : Frame) (c : String) (n1 : String) (n2 : String) (ac : String) :
    Except PyErr Frame :=
  if c ∈ f.cols ∧ ac ∈ f.cols then
    .ok { cols := [c, n1, n2],
          rows := (distinctKeys f.rows c).map (fun k =>
            let grp := f.rows.filter (fun r => decide (r.get c = k))
            [(c, k), (n1, Val.num (mkRat (grp.length : Int) 1)), (n2, sumCol grp ac)]),
          crs := none, index := none }
  else
    .error (.keyError s!"{c} or {ac} not found in columns")

/-- The labels produced by `gpd.sjoin(points, districts[[dcol, "geometry"]],
how="left", predicate="within")`, read off the renamed district column: each
point contributes one row per containing district, in district order, or a
single NaN-labelled row when no district contains it (left join). -/
def sjoinLeftLabels (pts : List Row) (dists : List Row) (dcol : String) :
    List Val :=
  pts.flatMap (fun r =>
    let ms := dists.filter (fun d => within (r.get "geometry") (d.get "geometry"))
    match ms with
    | [] => [Val.nan]
    | _ => ms.map (fun d => d.get dcol))

/-- The district label of a single point under a non-overlapping district
partition: the first (hence only) containing district's name, or NaN when the
point lies outside every district. -/
def pointLabel (dists : List Row) (dcol : String) (r : Row) : Val :=
  match dists.filter (fun d => within (r.get "geometry") (d.get "geometry")) with
  | [] => Val.nan
  | d :: _ => d.get dcol

/-- Numeric coordinate of a cell for `gpd.points_from_xy` (coordinate columns
hold numbers on every executed path). -/
def toQ : Val → ℚ
  | .num q => q
  | _ => 0

@[simp] theorem ebind_ok {e a b : Type} (x : a) (f : a → Except e b) :
    (Except.ok x >>= f) = f x := rfl

@[simp] theorem ebind_err {e a b : Type} (err : e) (f : a → Except e b) :
    ((Except.error err : Except e a) >>= f) = Except.error err := rfl

namespace EN

/-- `src/src/helpers.py`, `CRS` lines 77-92: compare the current CRS string
with the (already validated and normalized) target; equal means an unmodified
copy is returned, otherwise `to_crs` runs and failures are wrapped in a
`ValueError` naming both codes. -/
def CRScore (eng : Reproj) (gdf : Frame) (t : String) (name : String) :
    Except PyErr Frame :=
  let current := upStr (crsStr gdf.crs)
  if current = t then .ok gdf
  else
    match mapME (reprojRow eng current t) gdf.rows with
    | .ok rs => .ok { gdf with rows := rs, crs := some t }
    | .error e =>
        .error (.valueError s!"{name}: could not transform from {current} to {t}: {e}")

/-- `src/src/helpers.py`, `CRS`: validates the geometry column, the target
code (a string starting, after strip/upper, with `"EPSG:"`), and the presence
of a source CRS (unless `wgs84_missing` allows assuming EPSG:4326), then
reprojects if needed. The target is a `Val` because the source also accepts —
and rejects — non-string arguments (`isinstance` check, line 58). -/
def CRS (eng : Reproj) (gdf : Frame) (target_crs : Val) (name : String)
    (wgs84_missing : Bool) : Except PyErr Frame :=
  -- gdf = gdf.copy(): the value below is already independent of the caller's
  if "geometry" ∉ gdf.cols then
    .error (.valueError s!"{name} is missing 'geometry'-column.")
  else
    match target_crs with
    | .str t0 =>
      if startsWithStr (upStr (trimStr t0)) "EPSG:" then
        let t := upStr (trimStr t0)
        match gdf.crs with
        | none =>
            if wgs84_missing then
              CRScore eng { gdf with crs := some "EPSG:4326" } t name
            else
              .error (.valueError
                s!"{name} is missing CRS. Set CRS before calling CRS(), or use wgs84_missing=True.")
        | some _ => CRScore eng gdf t name
      else
        .error (.valueError s!"{name}: target_crs must be a string, e.g. 'EPSG:XXXX'.")
    | _ => .error (.valueError s!"{name}: target_crs must be a string, e.g. 'EPSG:XXXX'.")

/-- `src/src/data_processing.py`, `points_gdf`: checks the coordinate columns,
builds one point per row from (lon, lat), sets the source CRS and reprojects
to the target (wrapping engine failures in a `ValueError`). -/
def points_gdf (eng : Reproj) (trips_df : Frame) (lat_col lon_col : String)
    (source_crs target_crs : String) : Except PyErr Frame :=
  if lat_col ∉ trips_df.cols ∨ lon_col ∉ trips_df.cols then
    .error (.keyError s!"trips_df is missing the columns {lat_col} and/or {lon_col}.")
  else
    let gdf : Frame :=
      { cols := if "geometry" ∈ trips_df.cols then trips_df.cols else trips_df.cols ++ ["geometry"],
        rows := trips_df.rows.map (fun r =>
          r.set "geometry" (Val.geom (.point (toQ (r.get lon_col)) (toQ (r.get lat_col))))),
        crs := some source_crs,
        index := trips_df.index }
    match mapME (reprojRow eng source_crs target_crs) gdf.rows with
    | .ok rs => .ok { gdf with rows := rs, crs := some target_crs }
    | .error e => .error (.valueError s!"Could not transform CRS to {target_crs}: {e}")

/-- `src/src/data_processing.py`, `add_district` lines 113-138: the column
check, the three `CRS` calls, and the two left spatial joins, returning the
label arrays `start_join["start_district"].values` /
`end_join["end_district"].values`. -/
def add_district_core (eng : Reproj) (start_gdf end_gdf districts_gdf : Frame)
    (district_col : String) : Except PyErr (List Val × List Val) :=
  if district_col ∉ districts_gdf.cols then
    .error (.keyError s!"districts_gdf is missing the column {district_col}.")
  else
    match CRS eng districts_gdf (.str (crsStr districts_gdf.crs)) "districts_gdf" false with
    | .error e => .error e
    | .ok districts2 =>
      match CRS eng start_gdf (.str (crsStr districts2.crs)) "start_gdf" false with
      | .error e => .error e
      | .ok start2 =>
        match CRS eng end_gdf (.str (crsStr districts2.crs)) "end_gdf" false with
        | .error e => .error e
        | .ok end2 =>
          match districts2.select [district_col, "geometry"] with
          | .error e => .error e
          | .ok dsel =>
              .ok (sjoinLeftLabels start2.rows dsel.rows district_col,
                   sjoinLeftLabels end2.rows dsel.rows district_col)

/-- `src/src/data_processing.py`, `add_district`: label arrays are attached to
a copy of the trip table positionally (`.values`), one column per point set. -/
def add_district (eng : Reproj) (trips_df start_gdf end_gdf districts_gdf : Frame)
    (district_col : String) : Except PyErr Frame :=
  match add_district_core eng start_gdf end_gdf districts_gdf district_col with
  | .error e => .error e
  | .ok (sl, el) =>
    -- trips = trips_df.copy()
    match trips_df.setColVals "start_district" sl with
    | .error e => .error e
    | .ok trips1 => trips1.setColVals "end_district" el

/-- `src/src/indicators.py`, `mobilityindicators` lines 61-87: CRS check, area
and population density columns, the two trip-count groupbys, and the
set_index/select/join/fillna(0) combination. -/
def mobility_base (eng : Reproj) (districts_gdf trips_df : Frame)
    (population_col district_col start_col end_col : String) :
    Except PyErr Frame := do
  let districts ← CRS eng districts_gdf (.str (crsStr districts_gdf.crs)) "districts_gdf" false
  -- districts = districts_gdf.copy()
  let districts ← districts.setColExpr "area_km2" ["geometry"]
      (fun r => Val.div (Val.areaVal (r.get "geometry")) (Val.num 1000000))
  let districts ← districts.setColExpr "population_density_km2" [population_col, "area_km2"]
      (fun r => Val.div (r.get population_col) (r.get "area_km2"))
  let sg ← groupSizes trips_df start_col
  let eg ← groupSizes trips_df end_col
  let mi ← districts.setIndex district_col
  let msel ← mi.select ["geometry", "area_km2", population_col, "population_density_km2"]
  let mj1 ← msel.joinCounts "trips_started" sg
  let mj2 ← mj1.joinCounts "trips_ended" eg
  pure mj2.fillna0

/-- `src/src/indicators.py`, `mobilityindicators`: the base table followed by
the net/total columns and the four area-normalized and four
population-normalized rates. -/
def mobilityindicators (eng : Reproj) (districts_gdf trips_df : Frame)
    (population_col district_col start_col end_col : String) :
    Except PyErr Frame := do
  let m ← mobility_base eng districts_gdf trips_df population_col district_col start_col end_col
  let m ← m.setColExpr "net_trips" ["trips_ended", "trips_started"]
      (fun r => Val.sub (r.get "trips_ended") (r.get "trips_started"))
  let m ← m.setColExpr "total_trips" ["trips_started", "trips_ended"]
      (fun r => Val.add (r.get "trips_started") (r.get "trips_ended"))
  let m ← m.setColExpr "trips_started_per_km2" ["trips_started", "area_km2"]
      (fun r => Val.div (r.get "trips_started") (r.get "area_km2"))
  let m ← m.setColExpr "trips_ended_per_km2" ["trips_ended", "area_km2"]
      (fun r => Val.div (r.get "trips_ended") (r.get "area_km2"))
  let m ← m.setColExpr "net_trips_per_km2" ["net_trips", "area_km2"]
      (fun r => Val.div (r.get "net_trips") (r.get "area_km2"))
  let m ← m.setColExpr "total_trips_per_km2" ["total_trips", "area_km2"]
      (fun r => Val.div (r.get "total_trips") (r.get "area_km2"))
  let m ← m.setColExpr "trips_started_per_capita" ["trips_started", population_col]
      (fun r => Val.div (r.get "trips_started") (r.get population_col))
  let m ← m.setColExpr "trips_ended_per_capita" ["trips_ended", population_col]
      (fun r => Val.div (r.get "trips_ended") (r.get population_col))
  let m ← m.setColExpr "net_trips_per_capita" ["net_trips", population_col]
      (fun r => Val.div (r.get "net_trips") (r.get population_col))
  let m ← m.setColExpr "total_trips_per_capita" ["total_trips", population_col]
      (fun r => Val.div (r.get "total_trips") (r.get population_col))
  pure m

/-- `src/src/indicators.py`, `buildingindicators`: column checks, CRS
normalization of both tables to EPSG:25833, the per-district building
aggregation (note: the `agg(...)` on lines 173-178 names its output columns
`antall_bygninger` and `bygning_areal_m2`), the left merge, and then — as in
the source — reads of the columns `num_buildings` / `building_area_m2`, which
the merge never produced. -/
def buildingindicators (eng : Reproj) (buildings_gdf districts_gdf : Frame)
    (district_col : String) : Except PyErr Frame := do
  -- buildings = buildings_gdf.copy(); districts = districts_gdf.copy()
  if district_col ∉ buildings_gdf.cols then
    throw (.keyError s!"{district_col} is missing in buildings_gdf.")
  if district_col ∉ districts_gdf.cols then
    throw (.keyError s!"{district_col} is missing in districts_gdf.")
  let districts ← CRS eng districts_gdf (.str "EPSG:25833") "districts_gdf" false
  let buildings ← CRS eng buildings_gdf (.str "EPSG:25833") "buildings_gdf" false
  let buildings ← buildings.setColExpr "area_m2" ["geometry"]
      (fun r => Val.areaVal (r.get "geometry"))
  let agg ← groupAgg buildings district_col "antall_bygninger" "bygning_areal_m2" "area_m2"
  let districts ← districts.mergeLeft agg district_col
  let districts ← districts.fillnaCols ["num_buildings", "building_area_m2"]
  let districts ← districts.setColExpr "area_m2" ["geometry"]
      (fun r => Val.areaVal (r.get "geometry"))
  let districts ← districts.setColExpr "area_km2" ["geometry"]
      (fun r => Val.div (Val.areaVal (r.get "geometry")) (Val.num 1000000))
  let districts ← districts.setColExpr "buildings_per_km2" ["num_buildings", "area_km2"]
      (fun r => Val.div (r.get "num_buildings") (r.get "area_km2"))
  let districts ← districts.setColExpr "built_up_area_percent" ["building_area_m2", "area_m2"]
      (fun r => Val.mul (Val.div (r.get "building_area_m2") (r.get "area_m2")) (Val.num 100))
  let districts := districts.setColScalar "avg_building_area_m2" (Val.num 0)
  let districts ← districts.setColMasked "avg_building_area_m2"
      ["num_buildings", "building_area_m2"]
      (fun r => (r.get "num_buildings").gtZero)
      (fun r => Val.div (r.get "building_area_m2") (r.get "num_buildings"))
  districts.setIndex district_col

end EN

namespace NO

/-- `src/helpers.py`, `CRS` lines 78-92 (Norwegian twin of `EN.CRScore`;
only the message text differs). -/
def CRScore (eng : Reproj) (gdf : Frame) (t : String) (name : String) :
    Except PyErr Frame :=
  let current := upStr (crsStr gdf.crs)
  if current = t then .ok gdf
  else
    match mapME (reprojRow eng current t) gdf.rows with
    | .ok rs => .ok { gdf with rows := rs, crs := some t }
    | .error e =>
        .error (.valueError s!"{name}: kunne ikke transformere fra {current} til {t}: {e}")

/-- `src/helpers.py`, `CRS`: identical logic to `EN.CRS`; the missing-CRS
flag is called `wgs84_mangler` and the messages are Norwegian. -/
def CRS (eng : Reproj) (gdf : Frame) (target_crs : Val) (name : String)
    (wgs84_mangler : Bool) : Except PyErr Frame :=
  if "geometry" ∉ gdf.cols then
    .error (.valueError s!"{name} mangler 'geometry'-kolonne.")
  else
    match target_crs with
    | .str t0 =>
      if startsWithStr (upStr (trimStr t0)) "EPSG:" then
        let t := upStr (trimStr t0)
        match gdf.crs with
        | none =>
            if wgs84_mangler then
              CRScore eng { gdf with crs := some "EPSG:4326" } t name
            else
              .error (.valueError
                s!"{name} mangler CRS. Sett CRS foer du kaller CRS(), eller bruk wgs84_mangler=True.")
        | some _ => CRScore eng gdf t name
      else
        .error (.valueError s!"{name}: target_crs maa vaere en streng, e.g. 'EPSG:XXXX'.")
    | _ => .error (.valueError s!"{name}: target_crs maa vaere en streng, e.g. 'EPSG:XXXX'.")

/-- `src/src/data_prosessering.py`, `punkter_gdf` (Norwegian twin of
`EN.points_gdf`). -/
def punkter_gdf (eng : Reproj) (turer_df : Frame) (lat_col lon_col : String)
    (source_crs target_crs : String) : Except PyErr Frame :=
  if lat_col ∉ turer_df.cols ∨ lon_col ∉ turer_df.cols then
    .error (.keyError s!"turer_df mangler kolonnene {lat_col} og/eller {lon_col}.")
  else
    let gdf : Frame :=
      { cols := if "geometry" ∈ turer_df.cols then turer_df.cols else turer_df.cols ++ ["geometry"],
        rows := turer_df.rows.map (fun r =>
          r.set "geometry" (Val.geom (.point (toQ (r.get lon_col)) (toQ (r.get lat_col))))),
        crs := some source_crs,
        index := turer_df.index }
    match mapME (reprojRow eng source_crs target_crs) gdf.rows with
    | .ok rs => .ok { gdf with rows := rs, crs := some target_crs }
    | .error e => .error (.valueError s!"Kunne ikke transformere CRS til {target_crs}: {e}")

/-- `src/src/data_prosessering.py`, `legg_til_bydeler` lines 112-137: checks,
CRS calls and the two left spatial joins (labels for `start_bydel` /
`slutt_bydel`). -/
def legg_til_bydeler_core (eng : Reproj) (start_gdf slutt_gdf bydeler_gdf : Frame)
    (bydel_col : String) : Except PyErr (List Val × List Val) :=
  if bydel_col ∉ bydeler_gdf.cols then
    .error (.keyError s!"bydeler_gdf mangler kolonnen {bydel_col}.")
  else
    match CRS eng bydeler_gdf (.str (crsStr bydeler_gdf.crs)) "bydeler_gdf" false with
    | .error e => .error e
    | .ok bydeler2 =>
      match CRS eng start_gdf (.str (crsStr bydeler2.crs)) "start_gdf" false with
      | .error e => .error e
      | .ok start2 =>
        match CRS eng slutt_gdf (.str (crsStr bydeler2.crs)) "slutt_gdf" false with
        | .error e => .error e
        | .ok slutt2 =>
          match bydeler2.select [bydel_col, "geometry"] with
          | .error e => .error e
          | .ok dsel =>
              .ok (sjoinLeftLabels start2.rows dsel.rows bydel_col,
                   sjoinLeftLabels slutt2.rows dsel.rows bydel_col)

/-- `src/src/data_prosessering.py`, `legg_til_bydeler` (Norwegian twin of
`EN.add_district`; the new columns are `start_bydel` and `slutt_bydel`). -/
def legg_til_bydeler (eng : Reproj) (turer_df start_gdf slutt_gdf bydeler_gdf : Frame)
    (bydel_col : String) : Except PyErr Frame :=
  match legg_til_bydeler_core eng start_gdf slutt_gdf bydeler_gdf bydel_col with
  | .error e => .error e
  | .ok (sl, el) =>
    match turer_df.setColVals "start_bydel" sl with
    | .error e => .error e
    | .ok turer1 => turer1.setColVals "slutt_bydel" el

/-- `src/indikatorer.py`, `mobilitetsindikatorer` lines 61-87 (Norwegian twin
of `EN.mobility_base`). -/
def mobilitet_base (eng : Reproj) (bydeler_gdf turer_df : Frame)
    (befolkning_col bydel_col start_col slutt_col : String) :
    Except PyErr Frame := do
  let bydeler ← CRS eng bydeler_gdf (.str (crsStr bydeler_gdf.crs)) "bydeler_gdf" false
  let bydeler ← bydeler.setColExpr "areal_km2" ["geometry"]
      (fun r => Val.div (Val.areaVal (r.get "geometry")) (Val.num 1000000))
  let bydeler ← bydeler.setColExpr "befolkningstetthet_km2" [befolkning_col, "areal_km2"]
      (fun r => Val.div (r.get befolkning_col) (r.get "areal_km2"))
  let sg ← groupSizes turer_df start_col
  let eg ← groupSizes turer_df slutt_col
  let mi ← bydeler.setIndex bydel_col
  let msel ← mi.select ["geometry", "areal_km2", befolkning_col, "befolkningstetthet_km2"]
  let mj1 ← msel.joinCounts "turer_startet" sg
  let mj2 ← mj1.joinCounts "turer_sluttet" eg
  pure mj2.fillna0

/-- `src/indikatorer.py`, `mobilitetsindikatorer` (Norwegian twin of
`EN.mobilityindicators`). -/
def mobilitetsindikatorer (eng : Reproj) (bydeler_gdf turer_df : Frame)
    (befolkning_col bydel_col start_col slutt_col : String) :
    Except PyErr Frame := do
  let m ← mobilitet_base eng bydeler_gdf turer_df befolkning_col bydel_col start_col slutt_col
  let m ← m.setColExpr "netto_turer" ["turer_sluttet", "turer_startet"]
      (fun r => Val.sub (r.get "turer_sluttet") (r.get "turer_startet"))
  let m ← m.setColExpr "turer_totalt" ["turer_startet", "turer_sluttet"]
      (fun r => Val.add (r.get "turer_startet") (r.get "turer_sluttet"))
  let m ← m.setColExpr "turer_startet_per_km2" ["turer_startet", "areal_km2"]
      (fun r => Val.div (r.get "turer_startet") (r.get "areal_km2"))
  let m ← m.setColExpr "turer_sluttet_per_km2" ["turer_sluttet", "areal_km2"]
      (fun r => Val.div (r.get "turer_sluttet") (r.get "areal_km2"))
  let m ← m.setColExpr "netto_turer_per_km2" ["netto_turer", "areal_km2"]
      (fun r => Val.div (r.get "netto_turer") (r.get "areal_km2"))
  let m ← m.setColExpr "totalt_turer_per_km2" ["turer_totalt", "areal_km2"]
      (fun r => Val.div (r.get "turer_totalt") (r.get "areal_km2"))
  let m ← m.setColExpr "turer_startet_per_innbygger" ["turer_startet", befolkning_col]
      (fun r => Val.div (r.get "turer_startet") (r.get befolkning_col))
  let m ← m.setColExpr "turer_sluttet_per_innbygger" ["turer_sluttet", befolkning_col]
      (fun r => Val.div (r.get "turer_sluttet") (r.get befolkning_col))
  let m ← m.setColExpr "netto_turer_per_innbygger" ["netto_turer", befolkning_col]
      (fun r => Val.div (r.get "netto_turer") (r.get befolkning_col))
  let m ← m.setColExpr "totalt_turer_per_innbygger" ["turer_totalt", befolkning_col]
      (fun r => Val.div (r.get "turer_totalt") (r.get befolkning_col))
  pure m

/-- `src/indikatorer.py`, `bygningsindikatorer`: the Norwegian twin of
`EN.buildingindicators`; here the post-merge code consistently reads the
`antall_bygninger` / `bygning_areal_m2` columns the aggregation produced. -/
def bygningsindikatorer (eng : Reproj) (bygninger_gdf bydeler_gdf : Frame)
    (bydel_col : String) : Except PyErr Frame := do
  if bydel_col ∉ bygninger_gdf.cols then
    throw (.keyError s!"{bydel_col} mangler i bygninger_gdf.")
  if bydel_col ∉ bydeler_gdf.cols then
    throw (.keyError s!"{bydel_col} mangler i bydeler_gdf.")
  let bydeler ← CRS eng bydeler_gdf (.str "EPSG:25833") "bydeler_gdf" false
  let bygg ← CRS eng bygninger_gdf (.str "EPSG:25833") "bygninger_gdf" false
  let bygg ← bygg.setColExpr "areal_m2" ["geometry"]
      (fun r => Val.areaVal (r.get "geometry"))
  let agg ← groupAgg bygg bydel_col "antall_bygninger" "bygning_areal_m2" "areal_m2"
  let bydeler ← bydeler.mergeLeft agg bydel_col
  let bydeler ← bydeler.fillnaCols ["antall_bygninger", "bygning_areal_m2"]
  let bydeler ← bydeler.setColExpr "areal_m2" ["geometry"]
      (fun r => Val.areaVal (r.get "geometry"))
  let bydeler ← bydeler.setColExpr "areal_km2" ["geometry"]
      (fun r => Val.div (Val.areaVal (r.get "geometry")) (Val.num 1000000))
  let bydeler ← bydeler.setColExpr "bygninger_per_km2" ["antall_bygninger", "areal_km2"]
      (fun r => Val.div (r.get "antall_bygninger") (r.get "areal_km2"))
  let bydeler ← bydeler.setColExpr "bebygd_areal_prosent" ["bygning_areal_m2", "areal_m2"]
      (fun r => Val.mul (Val.div (r.get "bygning_areal_m2") (r.get "areal_m2")) (Val.num 100))
  let bydeler := bydeler.setColScalar "avg_bygning_areal_m2" (Val.num 0)
  let bydeler ← bydeler.setColMasked "avg_bygning_areal_m2"
      ["antall_bygninger", "bygning_areal_m2"]
      (fun r => (r.get "antall_bygninger").gtZero)
      (fun r => Val.div (r.get "bygning_areal_m2") (r.get "antall_bygninger"))
  bydeler.setIndex bydel_col

end NO

/-! Concrete inputs used by the evaluation theorems and witnesses. -/

/-- A concrete external reprojection engine (identity transform). -/
def engId : Reproj := fun _ _ g => .ok g

/-- A concrete engine that rejects every transform (for exercising the
wrapped reprojection-failure path). -/
def engFail : Reproj := fun _ _ _ => .error "CRSError"

def polyA : Geom := .poly [(0, 0)] 1000000

def polyB : Geom := .poly [(5, 5)] 2000000

/-- Zero-area district polygon. -/
def polyZ : Geom := .poly [(9, 9)] 0

def districtsEx : Frame :=
  { cols := ["bydel", "geometry", "befolkning_2024"],
    rows := [[("bydel", .str "A"), ("geometry", .geom polyA), ("befolkning_2024", .num 1000)],
             [("bydel", .str "B"), ("geometry", .geom polyB), ("befolkning_2024", .num 2000)]],
    crs := some "EPSG:25833", index := none }

def tripsEx : Frame :=
  { cols := ["start_district", "end_district"],
    rows := [[("start_district", .str "A"), ("end_district", .str "A")]],
    crs := none, index := none }

def buildingsEx : Frame :=
  { cols := ["bydel", "geometry"],
    rows := [[("bydel", .str "A"), ("geometry", .geom (.poly [] 100))],
             [("bydel", .str "A"), ("geometry", .geom (.poly [] 300))]],
    crs := some "EPSG:25833", index := none }

def districtsZx : Frame :=
  { cols := ["bydel", "geometry", "befolkning_2024"],
    rows := [[("bydel", .str "Z"), ("geometry", .geom polyZ), ("befolkning_2024", .num 5)],
             [("bydel", .str "P"), ("geometry", .geom polyA), ("befolkning_2024", .num 0)]],
    crs := some "EPSG:25833", index := none }

def tripsZx : Frame :=
  { cols := ["start_district", "end_district"],
    rows := [[("start_district", .str "Z"), ("end_district", .str "Q")]],
    crs := none, index := none }

def buildingsZx : Frame :=
  { cols := ["bydel", "geometry"],
    rows := [[("bydel", .str "Z"), ("geometry", .geom (.poly [] 50))]],
    crs := some "EPSG:25833", index := none }

/-- Cell of a successful result (row `i`, column `c`). -/
def resCell (res : Except PyErr Frame) (i : Nat) (c : String) : Val :=
  match res with
  | .ok f => (f.rows.getD i []).get c
  | .error _ => Val.str "error"

deriving instance DecidableEq for Except

/-- Whether a computation succeeded. -/
def isOkB {α : Type} : Except PyErr α → Bool
  | .ok _ => true
  | .error _ => false

/-- C1: the spec claims the English and Norwegian pipelines are functionally
identical up to renaming. The building-indicator pair is not: on the same
valid labeled-buildings/districts input, the Norwegian `bygningsindikatorer`
returns the indicator table while the English `buildingindicators` raises a
`KeyError` — its `groupby(...).agg` (indicators.py lines 173-178) names the
aggregate columns `antall_bygninger`/`bygning_areal_m2`, but lines 184-197
read `num_buildings`/`building_area_m2`, which never exist. -/
theorem C1_building_pipelines_diverge :
    isOkB (NO.bygningsindikatorer engId buildingsEx districtsEx "bydel") = true ∧
    EN.buildingindicators engId buildingsEx districtsEx "bydel" =
      .error (.keyError "None of num_buildings, building_area_m2 are in the columns") := by
  decide

/-- C2: zero-fill invariant, evaluated on a concrete input where district "B"
(row 1) has no trips and no buildings. `mobilityindicators` reports zero
trips started/ended for "B"; the Norwegian `bygningsindikatorer` reports
building count 0, building area 0 and average building area exactly 0; but
the English `buildingindicators` — which the claim also covers — never
returns these zeros: it raises a `KeyError` on every input that reaches its
post-merge fill (the `num_buildings`/`building_area_m2` naming slip). -/
theorem C2_zero_fill_eval :
    resCell (EN.mobilityindicators engId districtsEx tripsEx
      "befolkning_2024" "bydel" "start_district" "end_district") 1 "trips_started" = Val.num 0 ∧
    resCell (EN.mobilityindicators engId districtsEx tripsEx
      "befolkning_2024" "bydel" "start_district" "end_district") 1 "trips_ended" = Val.num 0 ∧
    resCell (NO.bygningsindikatorer engId buildingsEx districtsEx "bydel") 1 "antall_bygninger" = Val.num 0 ∧
    resCell (NO.bygningsindikatorer engId buildingsEx districtsEx "bydel") 1 "bygning_areal_m2" = Val.num 0 ∧
    resCell (NO.bygningsindikatorer engId buildingsEx districtsEx "bydel") 1 "avg_bygning_areal_m2" = Val.num 0 ∧
    isOkB (EN.buildingindicators engId buildingsEx districtsEx "bydel") = false := by
  decide

/-- C9: the per-km2/per-capita divisions are unguarded. Evaluated on a
zero-area district "Z" (with one started trip) and a zero-population district
"P": `mobilityindicators` returns (does not raise) with infinite population
density and started-trips rate and NaN ended-trips rate for "Z", and NaN
started-per-capita for "P"; the Norwegian `bygningsindikatorer` likewise
returns infinite buildings-per-km2 and built-up percent for "Z". The claim's
statement about the English `buildingindicators` divisions fails only because
that function raises a `KeyError` (the `num_buildings` naming slip) before
its division lines can run at all. -/
theorem C9_unguarded_divisions_eval :
    isOkB (EN.mobilityindicators engId districtsZx tripsZx
      "befolkning_2024" "bydel" "start_district" "end_district") = true ∧
    resCell (EN.mobilityindicators engId districtsZx tripsZx
      "befolkning_2024" "bydel" "start_district" "end_district") 0 "population_density_km2" = Val.inf true ∧
    resCell (EN.mobilityindicators engId districtsZx tripsZx
      "befolkning_2024" "bydel" "start_district" "end_district") 0 "trips_started_per_km2" = Val.inf true ∧
    resCell (EN.mobilityindicators engId districtsZx tripsZx
      "befolkning_2024" "bydel" "start_district" "end_district") 0 "trips_ended_per_km2" = Val.nan ∧
    resCell (EN.mobilityindicators engId districtsZx tripsZx
      "befolkning_2024" "bydel" "start_district" "end_district") 1 "trips_started_per_capita" = Val.nan ∧
    resCell (NO.bygningsindikatorer engId buildingsZx districtsZx "bydel") 0 "bygninger_per_km2" = Val.inf true ∧
    resCell (NO.bygningsindikatorer engId buildingsZx districtsZx "bydel") 0 "bebygd_areal_prosent" = Val.inf true ∧
    EN.buildingindicators engId buildingsZx districtsZx "bydel" =
      .error (.keyError "None of num_buildings, building_area_m2 are in the columns") := by
  decide

/-- Helper: when the current CRS string already equals the normalized target,
`EN.CRS` returns its argument unchanged, whatever the engine (the `to_crs`
path is never taken). -/
theorem EN.CRS_noop (eng : Reproj) (gdf : Frame) (t name : String) (w : Bool) (s : String)
    (hg : "geometry" ∈ gdf.cols) (hc : gdf.crs = some s)
    (hfmt : startsWithStr (upStr (trimStr t)) "EPSG:" = true)
    (heq : upStr s = upStr (trimStr t)) :
    EN.CRS eng gdf (.str t) name w = .ok gdf := by
  unfold EN.CRS
  rw [if_neg (fun hh => hh hg), hc]
  simp only [hfmt, if_true]
  unfold EN.CRScore
  rw [hc]
  simp [crsStr, heq]

/-- Helper: Norwegian twin of `EN.CRS_noop`. -/
theorem NO.CRS_noop_nor (eng : Reproj) (gdf : Frame) (t name : String) (w : Bool) (s : String)
    (hg : "geometry" ∈ gdf.cols) (hc : gdf.crs = some s)
    (hfmt : startsWithStr (upStr (trimStr t)) "EPSG:" = true)
    (heq : upStr s = upStr (trimStr t)) :
    NO.CRS eng gdf (.str t) name w = .ok gdf := by
  unfold NO.CRS
  rw [if_neg (fun hh => hh hg), hc]
  simp only [hfmt, if_true]
  unfold NO.CRScore
  rw [hc]
  simp [crsStr, heq]

/-- C5: CRS normalization is an idempotent no-op when the source CRS already
matches the target code (string comparison after normalization): both the
English and the Norwegian `CRS` return the argument table itself — exactly
the same coordinates, for every reprojection engine, because the transform
path is never reached. -/
theorem C5_crs_idempotent_noop (eng : Reproj) (gdf : Frame) (t name : String) (w : Bool)
    (s : String)
    (hg : "geometry" ∈ gdf.cols) (hc : gdf.crs = some s)
    (hfmt : startsWithStr (upStr (trimStr t)) "EPSG:" = true)
    (heq : upStr s = upStr (trimStr t)) :
    EN.CRS eng gdf (.str t) name w = .ok gdf ∧
    NO.CRS eng gdf (.str t) name w = .ok gdf :=
  ⟨EN.CRS_noop eng gdf t name w s hg hc hfmt heq,
   NO.CRS_noop_nor eng gdf t name w s hg hc hfmt heq⟩

/-- C5 witness: a concrete table already in (a lower-case spelling of) the
target CRS is returned unchanged even by an engine that rejects every
transform — so no transform was attempted. -/
theorem C5_crs_idempotent_noop_witness :
    EN.CRS engFail districtsEx (.str " epsg:25833 ") "gdf" false = .ok districtsEx ∧
    NO.CRS engFail districtsEx (.str " epsg:25833 ") "gdf" false = .ok districtsEx :=
  C5_crs_idempotent_noop engFail districtsEx " epsg:25833 " "gdf" false "EPSG:25833"
    (by decide) rfl (by decide) (by decide)

/-- C6 counterexample: `"EPSG:ABC"` is not of the form `EPSG:<digits>`, yet
the CRS normalizer does not fail on it — the validation (helpers.py line 58)
only checks the `"EPSG:"` prefix, and with an engine that accepts the code
the call succeeds outright. -/
theorem C6_counterexample_nondigit_target_accepted :
    isOkB (EN.CRS engId districtsEx (.str "EPSG:ABC") "gdf" false) = true := by
  decide

/-- C6 (amended): the immediate ValueError covers exactly the targets that
are not strings or whose normalized form does not start with `"EPSG:"`; a
target whose suffix after `"EPSG:"` is not digits passes this check (any
later failure would come from the reprojection engine, wrapped as a
reprojection ValueError, not from the validator). -/
theorem C6_crs_target_validation (eng : Reproj) (gdf : Frame) (name : String) (w : Bool)
    (hg : "geometry" ∈ gdf.cols) :
    (∀ t : String, startsWithStr (upStr (trimStr t)) "EPSG:" = false →
      EN.CRS eng gdf (.str t) name w =
        .error (.valueError s!"{name}: target_crs must be a string, e.g. 'EPSG:XXXX'.")) ∧
    (∀ v : Val, (∀ s0, v ≠ .str s0) →
      EN.CRS eng gdf v name w =
        .error (.valueError s!"{name}: target_crs must be a string, e.g. 'EPSG:XXXX'.")) := by
  constructor
  · intro t hbad
    unfold EN.CRS
    rw [if_neg (fun hh => hh hg)]
    simp only [hbad, Bool.false_eq_true, if_false]
  · intro v hv
    unfold EN.CRS
    rw [if_neg (fun hh => hh hg)]
    cases v with
    | num q => rfl
    | inf p => rfl
    | nan => rfl
    | str s0 => exact absurd rfl (hv s0)
    | geom g => rfl

/-- C6 witness: a target without the `EPSG:` prefix and a non-string target
are both rejected immediately with the format ValueError. -/
theorem C6_crs_target_validation_witness :
    EN.CRS engId districtsEx (.str "4326") "gdf" false =
      .error (.valueError "gdf: target_crs must be a string, e.g. 'EPSG:XXXX'.") ∧
    EN.CRS engId districtsEx (.num 3) "gdf" false =
      .error (.valueError "gdf: target_crs must be a string, e.g. 'EPSG:XXXX'.") :=
  ⟨(C6_crs_target_validation engId districtsEx "gdf" false (by decide)).1 "4326" (by decide),
   (C6_crs_target_validation engId districtsEx "gdf" false (by decide)).2 (.num 3)
     (fun s0 h => by cases h)⟩

/-- Elimination for a successful checked column assignment: the rows of the
result are the rowwise update of the input rows. -/
theorem Frame.setColExpr_ok {f f' : Frame} {c : String} {deps : List String}
    {g : Row → Val} (h : f.setColExpr c deps g = .ok f') :
    f'.rows = f.rows.map (fun r => r.set c (g r)) := by
  unfold Frame.setColExpr at h
  split at h
  · cases h; rfl
  · cases h

/-- C3: conservation law of the mobility aggregators, in both pipelines: in
every successfully returned table, each district row satisfies
`total_trips = trips_started + trips_ended` and
`net_trips = trips_ended - trips_started` exactly (elementwise `Val`
arithmetic, i.e. the very pandas column arithmetic the source performs). -/
theorem C3_conservation :
    (∀ (eng : Reproj) (d t : Frame) (pc dc sc ec : String) (m : Frame),
      EN.mobilityindicators eng d t pc dc sc ec = .ok m →
      ∀ r ∈ m.rows,
        r.get "total_trips" = Val.add (r.get "trips_started") (r.get "trips_ended") ∧
        r.get "net_trips" = Val.sub (r.get "trips_ended") (r.get "trips_started")) ∧
    (∀ (eng : Reproj) (d t : Frame) (pc dc sc ec : String) (m : Frame),
      NO.mobilitetsindikatorer eng d t pc dc sc ec = .ok m →
      ∀ r ∈ m.rows,
        r.get "turer_totalt" = Val.add (r.get "turer_startet") (r.get "turer_sluttet") ∧
        r.get "netto_turer" = Val.sub (r.get "turer_sluttet") (r.get "turer_startet")) := by
  constructor
  · intro eng d t pc dc sc ec m h
    unfold EN.mobilityindicators at h
    cases hb : EN.mobility_base eng d t pc dc sc ec with
    | error e => rw [hb] at h; simp at h
    | ok b =>
    rw [hb, ebind_ok] at h
    cases h1 : b.setColExpr "net_trips" ["trips_ended", "trips_started"]
        (fun r => Val.sub (r.get "trips_ended") (r.get "trips_started")) with
    | error e => rw [h1] at h; simp at h
    | ok b1 =>
    rw [h1, ebind_ok] at h
    cases h2 : b1.setColExpr "total_trips" ["trips_started", "trips_ended"]
        (fun r => Val.add (r.get "trips_started") (r.get "trips_ended")) with
    | error e => rw [h2] at h; simp at h
    | ok b2 =>
    rw [h2, ebind_ok] at h
    cases h3 : b2.setColExpr "trips_started_per_km2" ["trips_started", "area_km2"]
        (fun r => Val.div (r.get "trips_started") (r.get "area_km2")) with
    | error e => rw [h3] at h; simp at h
    | ok b3 =>
    rw [h3, ebind_ok] at h
    cases h4 : b3.setColExpr "trips_ended_per_km2" ["trips_ended", "area_km2"]
        (fun r => Val.div (r.get "trips_ended") (r.get "area_km2")) with
    | error e => rw [h4] at h; simp at h
    | ok b4 =>
    rw [h4, ebind_ok] at h
    cases h5 : b4.setColExpr "net_trips_per_km2" ["net_trips", "area_km2"]
        (fun r => Val.div (r.get "net_trips") (r.get "area_km2")) with
    | error e => rw [h5] at h; simp at h
    | ok b5 =>
    rw [h5, ebind_ok] at h
    cases h6 : b5.setColExpr "total_trips_per_km2" ["total_trips", "area_km2"]
        (fun r => Val.div (r.get "total_trips") (r.get "area_km2")) with
    | error e => rw [h6] at h; simp at h
    | ok b6 =>
    rw [h6, ebind_ok] at h
    cases h7 : b6.setColExpr "trips_started_per_capita" ["trips_started", pc]
        (fun r => Val.div (r.get "trips_started") (r.get pc)) with
    | error e => rw [h7] at h; simp at h
    | ok b7 =>
    rw [h7, ebind_ok] at h
    cases h8 : b7.setColExpr "trips_ended_per_capita" ["trips_ended", pc]
        (fun r => Val.div (r.get "trips_ended") (r.get pc)) with
    | error e => rw [h8] at h; simp at h
    | ok b8 =>
    rw [h8, ebind_ok] at h
    cases h9 : b8.setColExpr "net_trips_per_capita" ["net_trips", pc]
        (fun r => Val.div (r.get "net_trips") (r.get pc)) with
    | error e => rw [h9] at h; simp at h
    | ok b9 =>
    rw [h9, ebind_ok] at h
    cases h10 : b9.setColExpr "total_trips_per_capita" ["total_trips", pc]
        (fun r => Val.div (r.get "total_trips") (r.get pc)) with
    | error e => rw [h10] at h; simp at h
    | ok b10 =>
    rw [h10, ebind_ok] at h
    have hm : b10 = m := by
      have h' : Except.ok (ε := PyErr) b10 = Except.ok m := h
      injection h' 
    subst hm
    have e1 := Frame.setColExpr_ok h1
    have e2 := Frame.setColExpr_ok h2
    have e3 := Frame.setColExpr_ok h3
    have e4 := Frame.setColExpr_ok h4
    have e5 := Frame.setColExpr_ok h5
    have e6 := Frame.setColExpr_ok h6
    have e7 := Frame.setColExpr_ok h7
    have e8 := Frame.setColExpr_ok h8
    have e9 := Frame.setColExpr_ok h9
    have e10 := Frame.setColExpr_ok h10
    intro r hr
    rw [e10, e9, e8, e7, e6, e5, e4, e3, e2, e1] at hr
    simp only [List.map_map, List.mem_map, Function.comp] at hr
    obtain ⟨r0, hr0, rfl⟩ := hr
    constructor <;> simp [Row.get_set]
  · intro eng d t pc dc sc ec m h
    unfold NO.mobilitetsindikatorer at h
    cases hb : NO.mobilitet_base eng d t pc dc sc ec with
    | error e => rw [hb] at h; simp at h
    | ok b =>
    rw [hb, ebind_ok] at h
    cases h1 : b.setColExpr "netto_turer" ["turer_sluttet", "turer_startet"]
        (fun r => Val.sub (r.get "turer_sluttet") (r.get "turer_startet")) with
    | error e => rw [h1] at h; simp at h
    | ok b1 =>
    rw [h1, ebind_ok] at h
    cases h2 : b1.setColExpr "turer_totalt" ["turer_startet", "turer_sluttet"]
        (fun r => Val.add (r.get "turer_startet") (r.get "turer_sluttet")) with
    | error e => rw [h2] at h; simp at h
    | ok b2 =>
    rw [h2, ebind_ok] at h
    cases h3 : b2.setColExpr "turer_startet_per_km2" ["turer_startet", "areal_km2"]
        (fun r => Val.div (r.get "turer_startet") (r.get "areal_km2")) with
    | error e => rw [h3] at h; simp at h
    | ok b3 =>
    rw [h3, ebind_ok] at h
    cases h4 : b3.setColExpr "turer_sluttet_per_km2" ["turer_sluttet", "areal_km2"]
        (fun r => Val.div (r.get "turer_sluttet") (r.get "areal_km2")) with
    | error e => rw [h4] at h; simp at h
    | ok b4 =>
    rw [h4, ebind_ok] at h
    cases h5 : b4.setColExpr "netto_turer_per_km2" ["netto_turer", "areal_km2"]
        (fun r => Val.div (r.get "netto_turer") (r.get "areal_km2")) with
    | error e => rw [h5] at h; simp at h
    | ok b5 =>
    rw [h5, ebind_ok] at h
    cases h6 : b5.setColExpr "totalt_turer_per_km2" ["turer_totalt", "areal_km2"]
        (fun r => Val.div (r.get "turer_totalt") (r.get "areal_km2")) with
    | error e => rw [h6] at h; simp at h
    | ok b6 =>
    rw [h6, ebind_ok] at h
    cases h7 : b6.setColExpr "turer_startet_per_innbygger" ["turer_startet", pc]
        (fun r => Val.div (r.get "turer_startet") (r.get pc)) with
    | error e => rw [h7] at h; simp at h
    | ok b7 =>
    rw [h7, ebind_ok] at h
    cases h8 : b7.setColExpr "turer_sluttet_per_innbygger" ["turer_sluttet", pc]
        (fun r => Val.div (r.get "turer_sluttet") (r.get pc)) with
    | error e => rw [h8] at h; simp at h
    | ok b8 =>
    rw [h8, ebind_ok] at h
    cases h9 : b8.setColExpr "netto_turer_per_innbygger" ["netto_turer", pc]
        (fun r => Val.div (r.get "netto_turer") (r.get pc)) with
    | error e => rw [h9] at h; simp at h
    | ok b9 =>
    rw [h9, ebind_ok] at h
    cases h10 : b9.setColExpr "totalt_turer_per_innbygger" ["turer_totalt", pc]
        (fun r => Val.div (r.get "turer_totalt") (r.get pc)) with
    | error e => rw [h10] at h; simp at h
    | ok b10 =>
    rw [h10, ebind_ok] at h
    have hm : b10 = m := by
      have h' : Except.ok (ε := PyErr) b10 = Except.ok m := h
      injection h' 
    subst hm
    have e1 := Frame.setColExpr_ok h1
    have e2 := Frame.setColExpr_ok h2
    have e3 := Frame.setColExpr_ok h3
    have e4 := Frame.setColExpr_ok h4
    have e5 := Frame.setColExpr_ok h5
    have e6 := Frame.setColExpr_ok h6
    have e7 := Frame.setColExpr_ok h7
    have e8 := Frame.setColExpr_ok h8
    have e9 := Frame.setColExpr_ok h9
    have e10 := Frame.setColExpr_ok h10
    intro r hr
    rw [e10, e9, e8, e7, e6, e5, e4, e3, e2, e1] at hr
    simp only [List.map_map, List.mem_map, Function.comp] at hr
    obtain ⟨r0, hr0, rfl⟩ := hr
    constructor <;> simp [Row.get_set]

def tripsNOEx : Frame :=
  { cols := ["start_bydel", "slutt_bydel"],
    rows := [[("start_bydel", .str "A"), ("slutt_bydel", .str "A")]],
    crs := none, index := none }

/-- The successful English mobility result on the concrete example input. -/
def mobResEx : Frame :=
  match EN.mobilityindicators engId districtsEx tripsEx
      "befolkning_2024" "bydel" "start_district" "end_district" with
  | .ok f => f
  | .error _ => { cols := [], rows := [], crs := none, index := none }

/-- The successful Norwegian mobility result on the concrete example input. -/
def mobResExNO : Frame :=
  match NO.mobilitetsindikatorer engId districtsEx tripsNOEx
      "befolkning_2024" "bydel" "start_bydel" "slutt_bydel" with
  | .ok f => f
  | .error _ => { cols := [], rows := [], crs := none, index := none }

/-- C3 witness: the conservation law instantiated on the concrete example
tables, both pipelines, first district row. -/
theorem C3_conservation_witness :
    ((mobResEx.rows.getD 0 []).get "total_trips" =
      Val.add ((mobResEx.rows.getD 0 []).get "trips_started")
        ((mobResEx.rows.getD 0 []).get "trips_ended") ∧
     (mobResEx.rows.getD 0 []).get "net_trips" =
      Val.sub ((mobResEx.rows.getD 0 []).get "trips_ended")
        ((mobResEx.rows.getD 0 []).get "trips_started")) ∧
    ((mobResExNO.rows.getD 0 []).get "turer_totalt" =
      Val.add ((mobResExNO.rows.getD 0 []).get "turer_startet")
        ((mobResExNO.rows.getD 0 []).get "turer_sluttet") ∧
     (mobResExNO.rows.getD 0 []).get "netto_turer" =
      Val.sub ((mobResExNO.rows.getD 0 []).get "turer_sluttet")
        ((mobResExNO.rows.getD 0 []).get "turer_startet")) :=
  ⟨C3_conservation.1 engId districtsEx tripsEx
      "befolkning_2024" "bydel" "start_district" "end_district" mobResEx (by decide)
      (mobResEx.rows.getD 0 []) (by decide),
   C3_conservation.2 engId districtsEx tripsNOEx
      "befolkning_2024" "bydel" "start_bydel" "slutt_bydel" mobResExNO (by decide)
      (mobResExNO.rows.getD 0 []) (by decide)⟩

/-- Positional read through a map, inside the length bound. -/
theorem List.getD_map_lt {α β : Type} (l : List α) (f : α → β) (i : Nat)
    (db : β) (da : α) (h : i < l.length) :
    (l.map f).getD i db = f (l.getD i da) := by
  rw [List.getD_eq_getElem?_getD, List.getD_eq_getElem?_getD, List.getElem?_map,
    List.getElem?_eq_getElem h]
  rfl

/-- `to_crs` leaves every non-geometry cell of a row unchanged. -/
theorem reprojRow_ok_get {eng : Reproj} {s t : String} {r r' : Row}
    (h : reprojRow eng s t r = .ok r') :
    ∀ c, c ≠ "geometry" → r'.get c = r.get c := by
  intro c hc
  unfold reprojRow at h
  split at h
  · rename_i g hg
    cases he : eng s t g with
    | ok g2 =>
        rw [he] at h
        cases h
        rw [Row.get_set, if_neg (fun hh => hc hh.symm)]
    | error e => rw [he] at h; cases h
  · cases h; rfl

/-- `to_crs` over a row list: length preserved, non-geometry cells preserved
positionally. -/
theorem mapME_reproj_spec (eng : Reproj) (s t : String) :
    ∀ (rs rs' : List Row), mapME (reprojRow eng s t) rs = .ok rs' →
      rs'.length = rs.length ∧
      ∀ i c, c ≠ "geometry" → (rs'.getD i []).get c = (rs.getD i []).get c := by
  intro rs
  induction rs with
  | nil =>
      intro rs' h
      cases h
      exact ⟨rfl, fun i c hc => rfl⟩
  | cons a l ih =>
      intro rs' h
      unfold mapME at h
      cases ha : reprojRow eng s t a with
      | error e => rw [ha] at h; cases h
      | ok a' =>
        rw [ha] at h
        cases hl : mapME (reprojRow eng s t) l with
        | error e => rw [hl] at h; cases h
        | ok l' =>
          rw [hl] at h
          cases h
          obtain ⟨hlen, hget⟩ := ih l' hl
          refine ⟨by simp [hlen], ?_⟩
          intro i c hc
          cases i with
          | zero => simpa using reprojRow_ok_get ha c hc
          | succ j => simpa using hget j c hc

@[simp] theorem emap_ok {e a b : Type} (x : a) (f : a → b) :
    (f <$> (Except.ok x : Except e a)) = Except.ok (f x) := rfl

@[simp] theorem emap_err {e a b : Type} (err : e) (f : a → b) :
    (f <$> (Except.error err : Except e a)) = (Except.error err : Except e b) := rfl

@[simp] theorem Val.div_nan_left (v : Val) : Val.div .nan v = .nan := by
  cases v <;> rfl

/-- `EN.CRScore` success: row count, columns and index are preserved, and so
is every non-geometry cell. -/
theorem EN.CRScore_ok_spec {eng : Reproj} {gdf : Frame} {t n : String} {g2 : Frame}
    (h : EN.CRScore eng gdf t n = .ok g2) :
    g2.rows.length = gdf.rows.length ∧ g2.cols = gdf.cols ∧ g2.index = gdf.index ∧
    ∀ i c, c ≠ "geometry" → (g2.rows.getD i []).get c = (gdf.rows.getD i []).get c := by
  unfold EN.CRScore at h
  dsimp only [] at h
  split at h
  · cases h; exact ⟨rfl, rfl, rfl, fun i c hc => rfl⟩
  · split at h
    · rename_i rs hrs
      cases h
      obtain ⟨hlen, hget⟩ := mapME_reproj_spec _ _ _ _ _ hrs
      exact ⟨hlen, rfl, rfl, hget⟩
    · cases h

/-- Norwegian twin of `EN.CRScore_ok_spec`. -/
theorem NO.CRScore_ok_spec_nor {eng : Reproj} {gdf : Frame} {t n : String} {g2 : Frame}
    (h : NO.CRScore eng gdf t n = .ok g2) :
    g2.rows.length = gdf.rows.length ∧ g2.cols = gdf.cols ∧ g2.index = gdf.index ∧
    ∀ i c, c ≠ "geometry" → (g2.rows.getD i []).get c = (gdf.rows.getD i []).get c := by
  unfold NO.CRScore at h
  dsimp only [] at h
  split at h
  · cases h; exact ⟨rfl, rfl, rfl, fun i c hc => rfl⟩
  · split at h
    · rename_i rs hrs
      cases h
      obtain ⟨hlen, hget⟩ := mapME_reproj_spec _ _ _ _ _ hrs
      exact ⟨hlen, rfl, rfl, hget⟩
    · cases h

/-- `EN.CRS` success: row count, columns and index are preserved, and so is
every non-geometry cell (only the geometry column is ever reprojected). -/
theorem EN.CRS_ok_spec {eng : Reproj} {gdf : Frame} {tv : Val} {n : String}
    {w : Bool} {g2 : Frame} (h : EN.CRS eng gdf tv n w = .ok g2) :
    g2.rows.length = gdf.rows.length ∧ g2.cols = gdf.cols ∧ g2.index = gdf.index ∧
    ∀ i c, c ≠ "geometry" → (g2.rows.getD i []).get c = (gdf.rows.getD i []).get c := by
  unfold EN.CRS at h
  dsimp only [] at h
  split at h
  · cases h
  · split at h
    · split at h
      · split at h
        · split at h
          · have hh := EN.CRScore_ok_spec h
            exact hh
          · cases h
        · exact EN.CRScore_ok_spec h
      · cases h
    · cases h

/-- Norwegian twin of `EN.CRS_ok_spec`. -/
theorem NO.CRS_ok_spec_nor {eng : Reproj} {gdf : Frame} {tv : Val} {n : String}
    {w : Bool} {g2 : Frame} (h : NO.CRS eng gdf tv n w = .ok g2) :
    g2.rows.length = gdf.rows.length ∧ g2.cols = gdf.cols ∧ g2.index = gdf.index ∧
    ∀ i c, c ≠ "geometry" → (g2.rows.getD i []).get c = (gdf.rows.getD i []).get c := by
  unfold NO.CRS at h
  dsimp only [] at h
  split at h
  · cases h
  · split at h
    · split at h
      · split at h
        · split at h
          · have hh := NO.CRScore_ok_spec_nor h
            exact hh
          · cases h
        · exact NO.CRScore_ok_spec_nor h
      · cases h
    · cases h

/-- Metadata preserved by a checked column assignment. -/
theorem Frame.setColExpr_ok_meta {f f' : Frame} {c : String} {deps : List String}
    {g : Row → Val} (h : f.setColExpr c deps g = .ok f') :
    f'.index = f.index ∧ f'.crs = f.crs := by
  unfold Frame.setColExpr at h
  split at h
  · cases h; exact ⟨rfl, rfl⟩
  · cases h

/-- `set_index` success: rows untouched, the index becomes the column. -/
theorem Frame.setIndex_ok_spec {f f' : Frame} {c : String}
    (h : f.setIndex c = .ok f') :
    f'.rows = f.rows ∧ f'.index = some c ∧ f'.crs = f.crs := by
  unfold Frame.setIndex at h
  split at h
  · cases h; exact ⟨rfl, rfl, rfl⟩
  · cases h

/-- Column selection success: rows are rebuilt from the selected columns (the
index kept), index and crs preserved. -/
theorem Frame.select_ok_spec {f f' : Frame} {cs : List String}
    (h : f.select cs = .ok f') :
    f'.rows = f.rows.map (fun r =>
      (match f.index with
       | some ic => [(ic, r.get ic)]
       | none => []) ++ cs.map (fun c => (c, r.get c))) ∧
    f'.index = f.index ∧ f'.crs = f.crs := by
  unfold Frame.select at h
  split at h
  · cases h; exact ⟨rfl, rfl, rfl⟩
  · cases h

/-- Count-series join success: each row gets the looked-up count appended,
index and crs preserved. -/
theorem Frame.joinCounts_ok_spec {f f' : Frame} {name : String}
    {s : List (Val × ℚ)} (h : f.joinCounts name s = .ok f') :
    f'.rows = f.rows.map (fun (r : Row) =>
      r ++ [(name, lookupCount s (match f.index with
        | some ic => r.get ic
        | none => Val.nan))]) ∧
    f'.index = f.index ∧ f'.crs = f.crs := by
  unfold Frame.joinCounts at h
  split at h
  · cases h
  · cases h; exact ⟨rfl, rfl, rfl⟩

/-- The ten indicator-column updates of `EN.mobilityindicators` as one row
transformation (derived view used for elimination lemmas). -/
def EN.withRates (pc : String) (r0 : Row) : Row :=
  let r1 := r0.set "net_trips" (Val.sub (r0.get "trips_ended") (r0.get "trips_started"))
  let r2 := r1.set "total_trips" (Val.add (r1.get "trips_started") (r1.get "trips_ended"))
  let r3 := r2.set "trips_started_per_km2" (Val.div (r2.get "trips_started") (r2.get "area_km2"))
  let r4 := r3.set "trips_ended_per_km2" (Val.div (r3.get "trips_ended") (r3.get "area_km2"))
  let r5 := r4.set "net_trips_per_km2" (Val.div (r4.get "net_trips") (r4.get "area_km2"))
  let r6 := r5.set "total_trips_per_km2" (Val.div (r5.get "total_trips") (r5.get "area_km2"))
  let r7 := r6.set "trips_started_per_capita" (Val.div (r6.get "trips_started") (r6.get pc))
  let r8 := r7.set "trips_ended_per_capita" (Val.div (r7.get "trips_ended") (r7.get pc))
  let r9 := r8.set "net_trips_per_capita" (Val.div (r8.get "net_trips") (r8.get pc))
  r9.set "total_trips_per_capita" (Val.div (r9.get "total_trips") (r9.get pc))

/-- The ten indicator-column updates of `NO.mobilitetsindikatorer` as one row
transformation. -/
def NO.withRates (pc : String) (r0 : Row) : Row :=
  let r1 := r0.set "netto_turer" (Val.sub (r0.get "turer_sluttet") (r0.get "turer_startet"))
  let r2 := r1.set "turer_totalt" (Val.add (r1.get "turer_startet") (r1.get "turer_sluttet"))
  let r3 := r2.set "turer_startet_per_km2" (Val.div (r2.get "turer_startet") (r2.get "areal_km2"))
  let r4 := r3.set "turer_sluttet_per_km2" (Val.div (r3.get "turer_sluttet") (r3.get "areal_km2"))
  let r5 := r4.set "netto_turer_per_km2" (Val.div (r4.get "netto_turer") (r4.get "areal_km2"))
  let r6 := r5.set "totalt_turer_per_km2" (Val.div (r5.get "turer_totalt") (r5.get "areal_km2"))
  let r7 := r6.set "turer_startet_per_innbygger" (Val.div (r6.get "turer_startet") (r6.get pc))
  let r8 := r7.set "turer_sluttet_per_innbygger" (Val.div (r7.get "turer_sluttet") (r7.get pc))
  let r9 := r8.set "netto_turer_per_innbygger" (Val.div (r8.get "netto_turer") (r8.get pc))
  r9.set "totalt_turer_per_innbygger" (Val.div (r9.get "turer_totalt") (r9.get pc))

/-- Elimination for a successful `EN.mobilityindicators` call: a successful
base table exists, and the result is the base rows under the ten
rate-column updates. -/
theorem EN.mobilityindicators_ok {eng : Reproj} {d t : Frame}
    {pc dc sc ec : String} {m : Frame}
    (h : EN.mobilityindicators eng d t pc dc sc ec = .ok m) :
    ∃ b, EN.mobility_base eng d t pc dc sc ec = .ok b ∧
      m.rows = b.rows.map (EN.withRates pc) ∧ m.index = b.index := by
  unfold EN.mobilityindicators at h
  cases hb : EN.mobility_base eng d t pc dc sc ec with
  | error e => rw [hb] at h; simp at h
  | ok b =>
  rw [hb, ebind_ok] at h
  refine ⟨b, rfl, ?_⟩
  cases h1 : b.setColExpr "net_trips" ["trips_ended", "trips_started"]
      (fun r => Val.sub (r.get "trips_ended") (r.get "trips_started")) with
  | error e => rw [h1] at h; simp at h
  | ok b1 =>
  rw [h1, ebind_ok] at h
  cases h2 : b1.setColExpr "total_trips" ["trips_started", "trips_ended"]
      (fun r => Val.add (r.get "trips_started") (r.get "trips_ended")) with
  | error e => rw [h2] at h; simp at h
  | ok b2 =>
  rw [h2, ebind_ok] at h
  cases h3 : b2.setColExpr "trips_started_per_km2" ["trips_started", "area_km2"]
      (fun r => Val.div (r.get "trips_started") (r.get "area_km2")) with
  | error e => rw [h3] at h; simp at h
  | ok b3 =>
  rw [h3, ebind_ok] at h
  cases h4 : b3.setColExpr "trips_ended_per_km2" ["trips_ended", "area_km2"]
      (fun r => Val.div (r.get "trips_ended") (r.get "area_km2")) with
  | error e => rw [h4] at h; simp at h
  | ok b4 =>
  rw [h4, ebind_ok] at h
  cases h5 : b4.setColExpr "net_trips_per_km2" ["net_trips", "area_km2"]
      (fun r => Val.div (r.get "net_trips") (r.get "area_km2")) with
  | error e => rw [h5] at h; simp at h
  | ok b5 =>
  rw [h5, ebind_ok] at h
  cases h6 : b5.setColExpr "total_trips_per_km2" ["total_trips", "area_km2"]
      (fun r => Val.div (r.get "total_trips") (r.get "area_km2")) with
  | error e => rw [h6] at h; simp at h
  | ok b6 =>
  rw [h6, ebind_ok] at h
  cases h7 : b6.setColExpr "trips_started_per_capita" ["trips_started", pc]
      (fun r => Val.div (r.get "trips_started") (r.get pc)) with
  | error e => rw [h7] at h; simp at h
  | ok b7 =>
  rw [h7, ebind_ok] at h
  cases h8 : b7.setColExpr "trips_ended_per_capita" ["trips_ended", pc]
      (fun r => Val.div (r.get "trips_ended") (r.get pc)) with
  | error e => rw [h8] at h; simp at h
  | ok b8 =>
  rw [h8, ebind_ok] at h
  cases h9 : b8.setColExpr "net_trips_per_capita" ["net_trips", pc]
      (fun r => Val.div (r.get "net_trips") (r.get pc)) with
  | error e => rw [h9] at h; simp at h
  | ok b9 =>
  rw [h9, ebind_ok] at h
  cases h10 : b9.setColExpr "total_trips_per_capita" ["total_trips", pc]
      (fun r => Val.div (r.get "total_trips") (r.get pc)) with
  | error e => rw [h10] at h; simp at h
  | ok b10 =>
  rw [h10, ebind_ok] at h
  have hm : b10 = m := by
    have h' : Except.ok (ε := PyErr) b10 = Except.ok m := h
    injection h'
  subst hm
  constructor
  · rw [Frame.setColExpr_ok h10, Frame.setColExpr_ok h9, Frame.setColExpr_ok h8,
      Frame.setColExpr_ok h7, Frame.setColExpr_ok h6, Frame.setColExpr_ok h5,
      Frame.setColExpr_ok h4, Frame.setColExpr_ok h3, Frame.setColExpr_ok h2,
      Frame.setColExpr_ok h1]
    simp only [List.map_map]
    rfl
  · rw [(Frame.setColExpr_ok_meta h10).1, (Frame.setColExpr_ok_meta h9).1,
      (Frame.setColExpr_ok_meta h8).1, (Frame.setColExpr_ok_meta h7).1,
      (Frame.setColExpr_ok_meta h6).1, (Frame.setColExpr_ok_meta h5).1,
      (Frame.setColExpr_ok_meta h4).1, (Frame.setColExpr_ok_meta h3).1,
      (Frame.setColExpr_ok_meta h2).1, (Frame.setColExpr_ok_meta h1).1]

/-- Elimination for a successful `NO.mobilitetsindikatorer` call. -/
theorem NO.mobilitetsindikatorer_ok {eng : Reproj} {d t : Frame}
    {pc dc sc ec : String} {m : Frame}
    (h : NO.mobilitetsindikatorer eng d t pc dc sc ec = .ok m) :
    ∃ b, NO.mobilitet_base eng d t pc dc sc ec = .ok b ∧
      m.rows = b.rows.map (NO.withRates pc) ∧ m.index = b.index := by
  unfold NO.mobilitetsindikatorer at h
  cases hb : NO.mobilitet_base eng d t pc dc sc ec with
  | error e => rw [hb] at h; simp at h
  | ok b =>
  rw [hb, ebind_ok] at h
  refine ⟨b, rfl, ?_⟩
  cases h1 : b.setColExpr "netto_turer" ["turer_sluttet", "turer_startet"]
      (fun r => Val.sub (r.get "turer_sluttet") (r.get "turer_startet")) with
  | error e => rw [h1] at h; simp at h
  | ok b1 =>
  rw [h1, ebind_ok] at h
  cases h2 : b1.setColExpr "turer_totalt" ["turer_startet", "turer_sluttet"]
      (fun r => Val.add (r.get "turer_startet") (r.get "turer_sluttet")) with
  | error e => rw [h2] at h; simp at h
  | ok b2 =>
  rw [h2, ebind_ok] at h
  cases h3 : b2.setColExpr "turer_startet_per_km2" ["turer_startet", "areal_km2"]
      (fun r => Val.div (r.get "turer_startet") (r.get "areal_km2")) with
  | error e => rw [h3] at h; simp at h
  | ok b3 =>
  rw [h3, ebind_ok] at h
  cases h4 : b3.setColExpr "turer_sluttet_per_km2" ["turer_sluttet", "areal_km2"]
      (fun r => Val.div (r.get "turer_sluttet") (r.get "areal_km2")) with
  | error e => rw [h4] at h; simp at h
  | ok b4 =>
  rw [h4, ebind_ok] at h
  cases h5 : b4.setColExpr "netto_turer_per_km2" ["netto_turer", "areal_km2"]
      (fun r => Val.div (r.get "netto_turer") (r.get "areal_km2")) with
  | error e => rw [h5] at h; simp at h
  | ok b5 =>
  rw [h5, ebind_ok] at h
  cases h6 : b5.setColExpr "totalt_turer_per_km2" ["turer_totalt", "areal_km2"]
      (fun r => Val.div (r.get "turer_totalt") (r.get "areal_km2")) with
  | error e => rw [h6] at h; simp at h
  | ok b6 =>
  rw [h6, ebind_ok] at h
  cases h7 : b6.setColExpr "turer_startet_per_innbygger" ["turer_startet", pc]
      (fun r => Val.div (r.get "turer_startet") (r.get pc)) with
  | error e => rw [h7] at h; simp at h
  | ok b7 =>
  rw [h7, ebind_ok] at h
  cases h8 : b7.setColExpr "turer_sluttet_per_innbygger" ["turer_sluttet", pc]
      (fun r => Val.div (r.get "turer_sluttet") (r.get pc)) with
  | error e => rw [h8] at h; simp at h
  | ok b8 =>
  rw [h8, ebind_ok] at h
  cases h9 : b8.setColExpr "netto_turer_per_innbygger" ["netto_turer", pc]
      (fun r => Val.div (r.get "netto_turer") (r.get pc)) with
  | error e => rw [h9] at h; simp at h
  | ok b9 =>
  rw [h9, ebind_ok] at h
  cases h10 : b9.setColExpr "totalt_turer_per_innbygger" ["turer_totalt", pc]
      (fun r => Val.div (r.get "turer_totalt") (r.get pc)) with
  | error e => rw [h10] at h; simp at h
  | ok b10 =>
  rw [h10, ebind_ok] at h
  have hm : b10 = m := by
    have h' : Except.ok (ε := PyErr) b10 = Except.ok m := h
    injection h'
  subst hm
  constructor
  · rw [Frame.setColExpr_ok h10, Frame.setColExpr_ok h9, Frame.setColExpr_ok h8,
      Frame.setColExpr_ok h7, Frame.setColExpr_ok h6, Frame.setColExpr_ok h5,
      Frame.setColExpr_ok h4, Frame.setColExpr_ok h3, Frame.setColExpr_ok h2,
      Frame.setColExpr_ok h1]
    simp only [List.map_map]
    rfl
  · rw [(Frame.setColExpr_ok_meta h10).1, (Frame.setColExpr_ok_meta h9).1,
      (Frame.setColExpr_ok_meta h8).1, (Frame.setColExpr_ok_meta h7).1,
      (Frame.setColExpr_ok_meta h6).1, (Frame.setColExpr_ok_meta h5).1,
      (Frame.setColExpr_ok_meta h4).1, (Frame.setColExpr_ok_meta h3).1,
      (Frame.setColExpr_ok_meta h2).1, (Frame.setColExpr_ok_meta h1).1]

/-- The row transformation performed by `EN.mobility_base` after the CRS step
(derived view): area and density columns, re-tabulation by
`set_index(...)[[...]]`, the two count joins keyed on the district name, and
the blanket `fillna(0)`. -/
def EN.baseRow (pc dc : String) (sg eg : List (Val × ℚ)) (r0 : Row) : Row :=
  let r1 := r0.set "area_km2" (Val.div (Val.areaVal (r0.get "geometry")) (Val.num 1000000))
  let r2 := r1.set "population_density_km2" (Val.div (r1.get pc) (r1.get "area_km2"))
  let r3 : Row := [(dc, r2.get dc)] ++
    ["geometry", "area_km2", pc, "population_density_km2"].map (fun c => (c, r2.get c))
  let r4 : Row := r3 ++ [("trips_started", lookupCount sg (r3.get dc))]
  let r5 : Row := r4 ++ [("trips_ended", lookupCount eg (r4.get dc))]
  r5.map (fun p => (p.1, if some p.1 ≠ some dc ∧ p.2 = Val.nan then Val.num 0 else p.2))

/-- Norwegian twin of `EN.baseRow`. -/
def NO.baseRow (pc dc : String) (sg eg : List (Val × ℚ)) (r0 : Row) : Row :=
  let r1 := r0.set "areal_km2" (Val.div (Val.areaVal (r0.get "geometry")) (Val.num 1000000))
  let r2 := r1.set "befolkningstetthet_km2" (Val.div (r1.get pc) (r1.get "areal_km2"))
  let r3 : Row := [(dc, r2.get dc)] ++
    ["geometry", "areal_km2", pc, "befolkningstetthet_km2"].map (fun c => (c, r2.get c))
  let r4 : Row := r3 ++ [("turer_startet", lookupCount sg (r3.get dc))]
  let r5 : Row := r4 ++ [("turer_sluttet", lookupCount eg (r4.get dc))]
  r5.map (fun p => (p.1, if some p.1 ≠ some dc ∧ p.2 = Val.nan then Val.num 0 else p.2))

/-- Elimination for a successful `EN.mobility_base` call. -/
theorem EN.mobility_base_ok {eng : Reproj} {d t : Frame} {pc dc sc ec : String}
    {b : Frame} (h : EN.mobility_base eng d t pc dc sc ec = .ok b) :
    ∃ d1 sg eg,
      EN.CRS eng d (.str (crsStr d.crs)) "districts_gdf" false = .ok d1 ∧
      groupSizes t sc = .ok sg ∧ groupSizes t ec = .ok eg ∧
      b.index = some dc ∧
      b.rows = d1.rows.map (EN.baseRow pc dc sg eg) := by
  unfold EN.mobility_base at h
  cases hc : EN.CRS eng d (.str (crsStr d.crs)) "districts_gdf" false with
  | error e => rw [hc] at h; simp at h
  | ok d1 =>
  rw [hc, ebind_ok] at h
  cases h1 : d1.setColExpr "area_km2" ["geometry"]
      (fun r => Val.div (Val.areaVal (r.get "geometry")) (Val.num 1000000)) with
  | error e => rw [h1] at h; simp at h
  | ok d2 =>
  rw [h1, ebind_ok] at h
  cases h2 : d2.setColExpr "population_density_km2" [pc, "area_km2"]
      (fun r => Val.div (r.get pc) (r.get "area_km2")) with
  | error e => rw [h2] at h; simp at h
  | ok d3 =>
  rw [h2, ebind_ok] at h
  cases hsg : groupSizes t sc with
  | error e => rw [hsg] at h; simp at h
  | ok sg =>
  rw [hsg, ebind_ok] at h
  cases heg : groupSizes t ec with
  | error e => rw [heg] at h; simp at h
  | ok eg =>
  rw [heg, ebind_ok] at h
  cases hsi : d3.setIndex dc with
  | error e => rw [hsi] at h; simp at h
  | ok mi =>
  rw [hsi, ebind_ok] at h
  cases hsel : mi.select ["geometry", "area_km2", pc, "population_density_km2"] with
  | error e => rw [hsel] at h; simp at h
  | ok msel =>
  rw [hsel, ebind_ok] at h
  cases hj1 : msel.joinCounts "trips_started" sg with
  | error e => rw [hj1] at h; simp at h
  | ok mj1 =>
  rw [hj1, ebind_ok] at h
  cases hj2 : mj1.joinCounts "trips_ended" eg with
  | error e => rw [hj2] at h; simp at h
  | ok mj2 =>
  rw [hj2, ebind_ok] at h
  have hb : mj2.fillna0 = b := by
    have h' : Except.ok (ε := PyErr) mj2.fillna0 = Except.ok b := h
    injection h'
  subst hb
  obtain ⟨hr1, hi1, _⟩ := Frame.setIndex_ok_spec hsi
  obtain ⟨hr2, hi2, _⟩ := Frame.select_ok_spec hsel
  obtain ⟨hr3, hi3, _⟩ := Frame.joinCounts_ok_spec hj1
  obtain ⟨hr4, hi4, _⟩ := Frame.joinCounts_ok_spec hj2
  have hidx : mj2.index = some dc := by rw [hi4, hi3, hi2, hi1]
  refine ⟨d1, sg, eg, rfl, rfl, rfl, hidx, ?_⟩
  show mj2.rows.map _ = _
  rw [hr4, hr3, hr2, hr1, Frame.setColExpr_ok h2, Frame.setColExpr_ok h1]
  simp only [hidx, hi3, hi2, hi1, List.map_map]
  rfl

/-- Elimination for a successful `NO.mobilitet_base` call. -/
theorem NO.mobilitet_base_ok {eng : Reproj} {d t : Frame} {pc dc sc ec : String}
    {b : Frame} (h : NO.mobilitet_base eng d t pc dc sc ec = .ok b) :
    ∃ d1 sg eg,
      NO.CRS eng d (.str (crsStr d.crs)) "bydeler_gdf" false = .ok d1 ∧
      groupSizes t sc = .ok sg ∧ groupSizes t ec = .ok eg ∧
      b.index = some dc ∧
      b.rows = d1.rows.map (NO.baseRow pc dc sg eg) := by
  unfold NO.mobilitet_base at h
  cases hc : NO.CRS eng d (.str (crsStr d.crs)) "bydeler_gdf" false with
  | error e => rw [hc] at h; simp at h
  | ok d1 =>
  rw [hc, ebind_ok] at h
  cases h1 : d1.setColExpr "areal_km2" ["geometry"]
      (fun r => Val.div (Val.areaVal (r.get "geometry")) (Val.num 1000000)) with
  | error e => rw [h1] at h; simp at h
  | ok d2 =>
  rw [h1, ebind_ok] at h
  cases h2 : d2.setColExpr "befolkningstetthet_km2" [pc, "areal_km2"]
      (fun r => Val.div (r.get pc) (r.get "areal_km2")) with
  | error e => rw [h2] at h; simp at h
  | ok d3 =>
  rw [h2, ebind_ok] at h
  cases hsg : groupSizes t sc with
  | error e => rw [hsg] at h; simp at h
  | ok sg =>
  rw [hsg, ebind_ok] at h
  cases heg : groupSizes t ec with
  | error e => rw [heg] at h; simp at h
  | ok eg =>
  rw [heg, ebind_ok] at h
  cases hsi : d3.setIndex dc with
  | error e => rw [hsi] at h; simp at h
  | ok mi =>
  rw [hsi, ebind_ok] at h
  cases hsel : mi.select ["geometry", "areal_km2", pc, "befolkningstetthet_km2"] with
  | error e => rw [hsel] at h; simp at h
  | ok msel =>
  rw [hsel, ebind_ok] at h
  cases hj1 : msel.joinCounts "turer_startet" sg with
  | error e => rw [hj1] at h; simp at h
  | ok mj1 =>
  rw [hj1, ebind_ok] at h
  cases hj2 : mj1.joinCounts "turer_sluttet" eg with
  | error e => rw [hj2] at h; simp at h
  | ok mj2 =>
  rw [hj2, ebind_ok] at h
  have hb : mj2.fillna0 = b := by
    have h' : Except.ok (ε := PyErr) mj2.fillna0 = Except.ok b := h
    injection h'
  subst hb
  obtain ⟨hr1, hi1, _⟩ := Frame.setIndex_ok_spec hsi
  obtain ⟨hr2, hi2, _⟩ := Frame.select_ok_spec hsel
  obtain ⟨hr3, hi3, _⟩ := Frame.joinCounts_ok_spec hj1
  obtain ⟨hr4, hi4, _⟩ := Frame.joinCounts_ok_spec hj2
  have hidx : mj2.index = some dc := by rw [hi4, hi3, hi2, hi1]
  refine ⟨d1, sg, eg, rfl, rfl, rfl, hidx, ?_⟩
  show mj2.rows.map _ = _
  rw [hr4, hr3, hr2, hr1, Frame.setColExpr_ok h2, Frame.setColExpr_ok h1]
  simp only [hidx, hi3, hi2, hi1, List.map_map]
  rfl

/-- Row-level fact: with a NaN population cell, the base row ends up with
population 0 and population density 0 (the blanket `fillna(0)`), and the ten
rate updates do not touch those two cells. -/
theorem EN.baseRow_pop_zero (sg eg : List (Val × ℚ)) (r0 : Row)
    (hpop : r0.get "befolkning_2024" = Val.nan) :
    (EN.withRates "befolkning_2024"
        (EN.baseRow "befolkning_2024" "bydel" sg eg r0)).get "befolkning_2024" = Val.num 0 ∧
    (EN.withRates "befolkning_2024"
        (EN.baseRow "befolkning_2024" "bydel" sg eg r0)).get "population_density_km2" = Val.num 0 := by
  constructor <;>
  · unfold EN.withRates EN.baseRow
    simp [Row.get, Row.get_set, hpop]

/-- Norwegian twin of `EN.baseRow_pop_zero`. -/
theorem NO.baseRow_pop_zero_nor (sg eg : List (Val × ℚ)) (r0 : Row)
    (hpop : r0.get "befolkning_2024" = Val.nan) :
    (NO.withRates "befolkning_2024"
        (NO.baseRow "befolkning_2024" "bydel" sg eg r0)).get "befolkning_2024" = Val.num 0 ∧
    (NO.withRates "befolkning_2024"
        (NO.baseRow "befolkning_2024" "bydel" sg eg r0)).get "befolkningstetthet_km2" = Val.num 0 := by
  constructor <;>
  · unfold NO.withRates NO.baseRow
    simp [Row.get, Row.get_set, hpop]

/-- C10: the `fillna(0)` in the mobility aggregators is a blanket fill over
the whole joined table, not restricted to the trip-count columns: a district
whose population cell is missing (NaN) in the district table comes back with
population 0 and population density 0 in the result, in both pipelines —
the missing value is silently zeroed, not surfaced. -/
theorem C10_blanket_fillna (eng : Reproj) (d t tN m mN : Frame) (i : Nat)
    (hi : i < d.rows.length)
    (h : EN.mobilityindicators eng d t
      "befolkning_2024" "bydel" "start_district" "end_district" = .ok m)
    (hN : NO.mobilitetsindikatorer eng d tN
      "befolkning_2024" "bydel" "start_bydel" "slutt_bydel" = .ok mN)
    (hpop : (d.rows.getD i []).get "befolkning_2024" = Val.nan) :
    ((m.rows.getD i []).get "befolkning_2024" = Val.num 0 ∧
     (m.rows.getD i []).get "population_density_km2" = Val.num 0) ∧
    ((mN.rows.getD i []).get "befolkning_2024" = Val.num 0 ∧
     (mN.rows.getD i []).get "befolkningstetthet_km2" = Val.num 0) := by
  constructor
  · obtain ⟨b, hbase, hrows, _⟩ := EN.mobilityindicators_ok h
    obtain ⟨d1, sg, eg, hcrs, _, _, _, hbrows⟩ := EN.mobility_base_ok hbase
    obtain ⟨hlen1, _, _, hget1⟩ := EN.CRS_ok_spec hcrs
    have hi1 : i < d1.rows.length := by rw [hlen1]; exact hi
    have hpop1 : (d1.rows.getD i []).get "befolkning_2024" = Val.nan := by
      rw [hget1 i "befolkning_2024" (by decide)]; exact hpop
    have hm_i : m.rows.getD i [] =
        EN.withRates "befolkning_2024"
          (EN.baseRow "befolkning_2024" "bydel" sg eg (d1.rows.getD i [])) := by
      rw [hrows, hbrows,
        List.getD_map_lt _ _ i [] [] (by simpa using hi1),
        List.getD_map_lt _ _ i [] [] hi1]
    rw [hm_i]
    exact EN.baseRow_pop_zero sg eg _ hpop1
  · obtain ⟨b, hbase, hrows, _⟩ := NO.mobilitetsindikatorer_ok hN
    obtain ⟨d1, sg, eg, hcrs, _, _, _, hbrows⟩ := NO.mobilitet_base_ok hbase
    obtain ⟨hlen1, _, _, hget1⟩ := NO.CRS_ok_spec_nor hcrs
    have hi1 : i < d1.rows.length := by rw [hlen1]; exact hi
    have hpop1 : (d1.rows.getD i []).get "befolkning_2024" = Val.nan := by
      rw [hget1 i "befolkning_2024" (by decide)]; exact hpop
    have hm_i : mN.rows.getD i [] =
        NO.withRates "befolkning_2024"
          (NO.baseRow "befolkning_2024" "bydel" sg eg (d1.rows.getD i [])) := by
      rw [hrows, hbrows,
        List.getD_map_lt _ _ i [] [] (by simpa using hi1),
        List.getD_map_lt _ _ i [] [] hi1]
    rw [hm_i]
    exact NO.baseRow_pop_zero_nor sg eg _ hpop1

def districtsNaN : Frame :=
  { cols := ["bydel", "geometry", "befolkning_2024"],
    rows := [[("bydel", .str "N"), ("geometry", .geom polyA), ("befolkning_2024", .nan)]],
    crs := some "EPSG:25833", index := none }

def mobResNaN : Frame :=
  match EN.mobilityindicators engId districtsNaN tripsEx
      "befolkning_2024" "bydel" "start_district" "end_district" with
  | .ok f => f
  | .error _ => { cols := [], rows := [], crs := none, index := none }

def mobResNaNNO : Frame :=
  match NO.mobilitetsindikatorer engId districtsNaN tripsNOEx
      "befolkning_2024" "bydel" "start_bydel" "slutt_bydel" with
  | .ok f => f
  | .error _ => { cols := [], rows := [], crs := none, index := none }

/-- C10 witness: a concrete district with a missing population value comes
back with population 0 and population density 0 in both pipelines. -/
theorem C10_blanket_fillna_witness :
    (((mobResNaN.rows.getD 0 []).get "befolkning_2024" = Val.num 0 ∧
      (mobResNaN.rows.getD 0 []).get "population_density_km2" = Val.num 0) ∧
     ((mobResNaNNO.rows.getD 0 []).get "befolkning_2024" = Val.num 0 ∧
      (mobResNaNNO.rows.getD 0 []).get "befolkningstetthet_km2" = Val.num 0)) :=
  C10_blanket_fillna engId districtsNaN tripsEx tripsNOEx mobResNaN mobResNaNNO 0
    (by decide) (by decide) (by decide) (by decide)

/-- Elimination for a successful positional column assignment. -/
theorem Frame.setColVals_ok_spec {f f' : Frame} {c : String} {vs : List Val}
    (h : f.setColVals c vs = .ok f') :
    vs.length = f.rows.length ∧
    f'.rows = List.zipWith (fun r v => Row.set r c v) f.rows vs ∧
    f'.index = f.index ∧ f'.crs = f.crs := by
  unfold Frame.setColVals at h
  split at h
  · cases h; rename_i hlen; exact ⟨hlen, rfl, rfl, rfl⟩
  · cases h

/-- A positional column assignment with a mismatched array length raises the
pandas length ValueError. -/
theorem Frame.setColVals_mismatch {f : Frame} {c : String} {vs : List Val}
    (h : vs.length ≠ f.rows.length) :
    f.setColVals c vs = .error (.valueError
      s!"Length of values ({toString vs.length}) does not match length of index ({toString f.rows.length})") := by
  unfold Frame.setColVals
  rw [if_neg h]

/-- Under a non-overlapping district cover (each point inside at most one
district), the left spatial join yields exactly one label per point: the
containing district's name, or NaN for a point outside every district. -/
theorem sjoin_map_pointLabel (pts dists : List Row) (dcol : String)
    (h : ∀ r ∈ pts, (dists.filter
      (fun d => within (r.get "geometry") (d.get "geometry"))).length ≤ 1) :
    sjoinLeftLabels pts dists dcol = pts.map (pointLabel dists dcol) := by
  induction pts with
  | nil => rfl
  | cons a l ih =>
      unfold sjoinLeftLabels pointLabel
      rw [List.flatMap_cons]
      unfold sjoinLeftLabels pointLabel at ih
      rw [ih (fun r hr => h r (List.mem_cons_of_mem a hr)), List.map_cons]
      have ha := h a (List.mem_cons_self a l)
      cases hms : dists.filter (fun d => within (a.get "geometry") (d.get "geometry")) with
      | nil => rfl
      | cons d tl =>
          cases tl with
          | nil => rfl
          | cons d2 tl2 => rw [hms] at ha; simp at ha

/-- Selecting `[dcol, "geometry"]` from the district table does not change
the spatial-join labels: the rebuilt rows agree on the two used columns. -/
theorem sjoin_select_rows (pts dists : List Row) (dcol : String) :
    sjoinLeftLabels pts (dists.map (fun (dr : Row) =>
      ([] : Row) ++ [dcol, "geometry"].map (fun c => (c, dr.get c)))) dcol =
    sjoinLeftLabels pts dists dcol := by
  have hg : ∀ dr : Row,
      Row.get (([] : Row) ++ [dcol, "geometry"].map (fun c => (c, dr.get c))) "geometry"
        = dr.get "geometry" := by
    intro dr
    by_cases hdc : dcol = "geometry" <;> simp [Row.get, hdc]
  have hd : ∀ dr : Row,
      Row.get (([] : Row) ++ [dcol, "geometry"].map (fun c => (c, dr.get c))) dcol
        = dr.get dcol := by
    intro dr; simp [Row.get]
  unfold sjoinLeftLabels
  congr 1
  funext r
  rw [List.filter_map]
  have hpred : (fun d => within (r.get "geometry") (Row.get d "geometry")) ∘
      (fun (dr : Row) => ([] : Row) ++ [dcol, "geometry"].map (fun c => (c, dr.get c))) =
      (fun (d : Row) => within (r.get "geometry") (d.get "geometry")) := by
    funext dr
    simp only [Function.comp]
    rw [hg]
  rw [hpred]
  cases hflt : dists.filter (fun d => within (r.get "geometry") (d.get "geometry")) with
  | nil => rfl
  | cons d tl =>
      simp only [List.map_cons]
      rw [List.map_map]
      congr 1
      · simpa using hd d
      · apply List.map_congr_left
        intro d2 _
        simp [Row.get]

/-- C8 (implicit): `add_district` attaches labels positionally through raw
value arrays, so a label array whose length differs from the trip table —
e.g. from a point duplicated by overlapping district polygons, or point sets
of a different length — makes the column assignment raise the pandas
length-mismatch ValueError; and whenever `add_district` does return, the
output rows are exactly the trip rows, each with exactly one start label and
one end label attached positionally (no duplicated, extra, or misaligned
rows). -/
theorem C8_positional_label_assignment (eng : Reproj)
    (trips_df start_gdf end_gdf districts_gdf : Frame) (dc : String)
    (sl el : List Val)
    (hcore : EN.add_district_core eng start_gdf end_gdf districts_gdf dc = .ok (sl, el)) :
    (sl.length ≠ trips_df.rows.length →
      EN.add_district eng trips_df start_gdf end_gdf districts_gdf dc =
        .error (.valueError
          s!"Length of values ({toString sl.length}) does not match length of index ({toString trips_df.rows.length})")) ∧
    (∀ out, EN.add_district eng trips_df start_gdf end_gdf districts_gdf dc = .ok out →
      sl.length = trips_df.rows.length ∧ el.length = trips_df.rows.length ∧
      out.rows.length = trips_df.rows.length ∧
      out.rows = List.zipWith (fun r v => Row.set r "end_district" v)
        (List.zipWith (fun r v => Row.set r "start_district" v) trips_df.rows sl) el) := by
  constructor
  · intro hne
    unfold EN.add_district
    rw [hcore]
    dsimp only []
    rw [Frame.setColVals_mismatch hne]
  · intro out hout
    unfold EN.add_district at hout
    rw [hcore] at hout
    dsimp only [] at hout
    cases h1 : trips_df.setColVals "start_district" sl with
    | error e => rw [h1] at hout; cases hout
    | ok trips1 =>
    rw [h1] at hout
    obtain ⟨hlen1, hrows1, _, _⟩ := Frame.setColVals_ok_spec h1
    obtain ⟨hlen2, hrows2, _, _⟩ := Frame.setColVals_ok_spec hout
    have htr1 : trips1.rows.length = trips_df.rows.length := by
      rw [hrows1, List.length_zipWith, hlen1, Nat.min_self]
    refine ⟨hlen1, ?_, ?_, ?_⟩
    · rw [hlen2, htr1]
    · rw [hrows2, List.length_zipWith, hlen2, Nat.min_self, htr1]
    · rw [hrows2, hrows1]

def districtsOverlap : Frame :=
  { cols := ["bydel", "geometry"],
    rows := [[("bydel", .str "A"), ("geometry", .geom (.poly [(0, 0)] 1))],
             [("bydel", .str "B"), ("geometry", .geom (.poly [(0, 0)] 1))]],
    crs := some "EPSG:25833", index := none }

def onePoint : Frame :=
  { cols := ["geometry"], rows := [[("geometry", .geom (.point 0 0))]],
    crs := some "EPSG:25833", index := none }

def oneTrip : Frame :=
  { cols := ["id"], rows := [[("id", .num 1)]], crs := none, index := none }

/-- C8 witness: a point lying inside two overlapping district polygons makes
the left join return two rows for one trip, and the column assignment raises
the length-mismatch ValueError. -/
theorem C8_positional_label_assignment_witness :
    EN.add_district engId oneTrip onePoint onePoint districtsOverlap "bydel" =
      .error (.valueError "Length of values (2) does not match length of index (1)") :=
  (C8_positional_label_assignment engId oneTrip onePoint onePoint districtsOverlap "bydel"
    [.str "A", .str "B"] [.str "A", .str "B"] (by decide)).1 (by decide)

/-- C4: left-join completeness of district assignment. For a valid district
table (named column present, valid already-normalized CRS, default index)
whose polygons do not overlap (each reprojected point lies within at most one
district), and start/end point sets with as many rows as the trip table,
`add_district` succeeds and returns exactly one output row per input trip
row, in input order: the trip row itself with one start-district and one
end-district label, where a point lying outside every district receives the
missing label NaN rather than being dropped. -/
theorem C4_left_join_completeness (eng : Reproj)
    (trips_df start_gdf end_gdf districts_gdf : Frame) (dc ds : String)
    (s2 e2 : Frame)
    (hdc : dc ∈ districts_gdf.cols)
    (hg : "geometry" ∈ districts_gdf.cols)
    (hcrs : districts_gdf.crs = some ds)
    (hfmt : startsWithStr (upStr (trimStr ds)) "EPSG:" = true)
    (hnorm : upStr ds = upStr (trimStr ds))
    (hidx : districts_gdf.index = none)
    (hs : EN.CRS eng start_gdf (.str ds) "start_gdf" false = .ok s2)
    (he : EN.CRS eng end_gdf (.str ds) "end_gdf" false = .ok e2)
    (hslen : start_gdf.rows.length = trips_df.rows.length)
    (helen : end_gdf.rows.length = trips_df.rows.length)
    (huniq_s : ∀ r ∈ s2.rows, (districts_gdf.rows.filter
        (fun d => within (r.get "geometry") (d.get "geometry"))).length ≤ 1)
    (huniq_e : ∀ r ∈ e2.rows, (districts_gdf.rows.filter
        (fun d => within (r.get "geometry") (d.get "geometry"))).length ≤ 1) :
    ∃ out, EN.add_district eng trips_df start_gdf end_gdf districts_gdf dc = .ok out ∧
      out.rows.length = trips_df.rows.length ∧
      out.rows = List.zipWith (fun r v => Row.set r "end_district" v)
        (List.zipWith (fun r v => Row.set r "start_district" v)
          trips_df.rows (s2.rows.map (pointLabel districts_gdf.rows dc)))
        (e2.rows.map (pointLabel districts_gdf.rows dc)) ∧
      (∀ r : Row, (∀ d ∈ districts_gdf.rows,
          within (r.get "geometry") (d.get "geometry") = false) →
        pointLabel districts_gdf.rows dc r = Val.nan) := by
  have h1 : EN.CRS eng districts_gdf (.str (crsStr districts_gdf.crs))
      "districts_gdf" false = .ok districts_gdf := by
    rw [hcrs]
    exact EN.CRS_noop eng districts_gdf ds "districts_gdf" false ds hg hcrs hfmt hnorm
  have hs2len : s2.rows.length = trips_df.rows.length := by
    rw [(EN.CRS_ok_spec hs).1, hslen]
  have he2len : e2.rows.length = trips_df.rows.length := by
    rw [(EN.CRS_ok_spec he).1, helen]
  unfold EN.add_district EN.add_district_core
  rw [if_neg (fun hh => hh hdc), h1]
  dsimp only []
  simp only [hcrs, crsStr]
  rw [hs]
  dsimp only []
  rw [he]
  dsimp only []
  unfold Frame.select
  rw [if_pos (by simp [hdc, hg])]
  simp only [hidx]
  rw [sjoin_select_rows s2.rows districts_gdf.rows dc,
    sjoin_select_rows e2.rows districts_gdf.rows dc,
    sjoin_map_pointLabel s2.rows districts_gdf.rows dc huniq_s,
    sjoin_map_pointLabel e2.rows districts_gdf.rows dc huniq_e]
  have hsl : (s2.rows.map (pointLabel districts_gdf.rows dc)).length =
      trips_df.rows.length := by
    rw [List.length_map, hs2len]
  unfold Frame.setColVals
  rw [if_pos hsl]
  dsimp only []
  rw [if_pos (by
    rw [List.length_map, List.length_zipWith, List.length_map, hs2len, he2len,
      Nat.min_self])]
  refine ⟨_, rfl, ?_, rfl, ?_⟩
  · show (List.zipWith _ (List.zipWith _ trips_df.rows _) _).length = _
    rw [List.length_zipWith, List.length_zipWith, List.length_map,
      List.length_map, hs2len, he2len, Nat.min_self, Nat.min_self]
  · intro r hout
    unfold pointLabel
    have hnil : districts_gdf.rows.filter
        (fun d => within (r.get "geometry") (d.get "geometry")) = [] := by
      rw [List.filter_eq_nil_iff]
      intro d hd
      simp [hout d hd]
    rw [hnil]

def startPts : Frame :=
  { cols := ["geometry"],
    rows := [[("geometry", .geom (.point 0 0))], [("geometry", .geom (.point 9 9))]],
    crs := some "EPSG:25833", index := none }

def endPts : Frame :=
  { cols := ["geometry"],
    rows := [[("geometry", .geom (.point 5 5))], [("geometry", .geom (.point 0 0))]],
    crs := some "EPSG:25833", index := none }

def twoTrips : Frame :=
  { cols := ["id"], rows := [[("id", .num 1)], [("id", .num 2)]],
    crs := none, index := none }

/-- C4 witness: two trips over the non-overlapping example districts — one
start point inside district A, one outside all districts — keep exactly two
output rows in order, the outside point labeled NaN. -/
theorem C4_left_join_completeness_witness :
    ∃ out, EN.add_district engId twoTrips startPts endPts districtsEx "bydel" = .ok out ∧
      out.rows.length = twoTrips.rows.length ∧
      out.rows = List.zipWith (fun r v => Row.set r "end_district" v)
        (List.zipWith (fun r v => Row.set r "start_district" v)
          twoTrips.rows (startPts.rows.map (pointLabel districtsEx.rows "bydel")))
        (endPts.rows.map (pointLabel districtsEx.rows "bydel")) ∧
      (∀ r : Row, (∀ d ∈ districtsEx.rows,
          within (r.get "geometry") (d.get "geometry") = false) →
        pointLabel districtsEx.rows "bydel" r = Val.nan) :=
  C4_left_join_completeness engId twoTrips startPts endPts districtsEx "bydel"
    "EPSG:25833" startPts endPts (by decide) (by decide) rfl (by decide) (by decide)
    rfl (by decide) (by decide) rfl rfl (by decide) (by decide)

/-! Heap model for the ownership claim (C7). Python tables live on a heap and
function arguments are references to them. The heap embeddings below perform
the same `.copy()` / constructor allocations and the same in-place column
writes as the source functions, so "no function mutates a caller-supplied
table" becomes a statement about which references get written. Expression
steps that the source binds to fresh objects (`copy`, `set_crs`, `to_crs`,
`merge`, `set_index`, the join chain) allocate; statements of the form
`table[col] = ...` / `table.loc[mask, col] = ...` write in place to the
table's reference. -/

def emptyFrame : Frame := { cols := [], rows := [], crs := none, index := none }

structure Heap where
  tabs : List Frame
deriving Repr

def Heap.get (h : Heap) (r : Nat) : Frame := h.tabs.getD r emptyFrame

def Heap.alloc (h : Heap) (f : Frame) : Nat × Heap := (h.tabs.length, ⟨h.tabs ++ [f]⟩)

def Heap.setTab (h : Heap) (r : Nat) (f : Frame) : Heap := ⟨h.tabs.set r f⟩

/-- Run a sequence of in-place writes against the table at reference `r`,
stopping (like a raised exception) at the first failing one. -/
def Heap.writeSeq (h : Heap) (r : Nat) :
    List (Frame → Except PyErr Frame) → Except PyErr Unit × Heap
  | [] => (.ok (), h)
  | w :: ws =>
    match w (h.get r) with
    | .error e => (.error e, h)
    | .ok f => (h.setTab r f).writeSeq r ws

theorem Heap.get_alloc_lt (h : Heap) (f : Frame) {r : Nat}
    (hr : r < h.tabs.length) : ((h.alloc f).2).get r = h.get r := by
  unfold Heap.alloc Heap.get
  dsimp only
  rw [List.getD_append _ _ _ _ hr]

theorem Heap.len_alloc (h : Heap) (f : Frame) :
    ((h.alloc f).2).tabs.length = h.tabs.length + 1 := by
  simp [Heap.alloc]

theorem Heap.alloc_ref (h : Heap) (f : Frame) :
    (h.alloc f).1 = h.tabs.length := rfl

theorem Heap.get_setTab_ne (h : Heap) (f : Frame) {r r' : Nat} (hne : r ≠ r') :
    (h.setTab r' f).get r = h.get r := by
  unfold Heap.setTab Heap.get
  dsimp only
  rw [List.getD_eq_getElem?_getD, List.getD_eq_getElem?_getD,
    List.getElem?_set_ne (fun hh => hne hh.symm)]

theorem Heap.len_setTab (h : Heap) (r : Nat) (f : Frame) :
    ((h.setTab r f)).tabs.length = h.tabs.length := by
  simp [Heap.setTab]

theorem Heap.writeSeq_preserves (ws : List (Frame → Except PyErr Frame))
    (h : Heap) (r rr : Nat) (hne : rr ≠ r) :
    (((h.writeSeq r ws)).2).get rr = h.get rr := by
  induction ws generalizing h with
  | nil => rfl
  | cons w ws ih =>
      unfold Heap.writeSeq
      cases w (h.get r) with
      | error e => rfl
      | ok f => rw [ih]; exact Heap.get_setTab_ne h f hne

theorem Heap.writeSeq_len (ws : List (Frame → Except PyErr Frame))
    (h : Heap) (r : Nat) :
    (((h.writeSeq r ws)).2).tabs.length = h.tabs.length := by
  induction ws generalizing h with
  | nil => rfl
  | cons w ws ih =>
      unfold Heap.writeSeq
      cases w (h.get r) with
      | error e => rfl
      | ok f => rw [ih, Heap.len_setTab]

/-- Heap form of `EN.CRS`. Line 51 `gdf = gdf.copy()` allocates; every later
step (`set_crs`, `to_crs`) builds a new table that the source rebinds to its
local name; nothing writes in place. -/
def EN.CRS_state (eng : Reproj) (h : Heap) (gdfR : Nat) (target : Val)
    (name : String) (w : Bool) : Except PyErr Nat × Heap :=
  let (copyR, h) := h.alloc (h.get gdfR)
  match EN.CRS eng (h.get copyR) target name w with
  | .error e => (.error e, h)
  | .ok f =>
    let (resR, h) := h.alloc f
    (.ok resR, h)

/-- Heap form of `EN.points_gdf`: the `GeoDataFrame(trips_df.copy(), ...)`
constructor and `to_crs` build fresh tables; nothing writes in place. -/
def EN.points_gdf_state (eng : Reproj) (h : Heap) (tripsR : Nat)
    (lat_col lon_col source_crs target_crs : String) : Except PyErr Nat × Heap :=
  match EN.points_gdf eng (h.get tripsR) lat_col lon_col source_crs target_crs with
  | .error e => (.error e, h)
  | .ok f =>
    let (resR, h) := h.alloc f
    (.ok resR, h)

/-- Heap form of `EN.add_district`: the checks, CRS calls and spatial joins
only read (their intermediate tables are fresh); then line 141
`trips = trips_df.copy()` allocates and lines 142-143 write the two label
columns in place on that copy. -/
def EN.add_district_state (eng : Reproj) (h : Heap)
    (tripsR startR endR districtsR : Nat) (dc : String) :
    Except PyErr Nat × Heap :=
  match EN.add_district_core eng (h.get startR) (h.get endR) (h.get districtsR) dc with
  | .error e => (.error e, h)
  | .ok le =>
    let (tR, h) := h.alloc (h.get tripsR)
    match h.writeSeq tR
        [fun f => f.setColVals "start_district" le.1,
         fun f => f.setColVals "end_district" le.2] with
    | (.error e, h) => (.error e, h)
    | (.ok _, h) => (.ok tR, h)

/-- Heap form of `EN.mobilityindicators`: the CRS result and the
`districts_gdf.copy()` allocate; the two density columns are written in
place on the copy; the `set_index/select/join/fillna` chain builds the fresh
`mobility` table; the ten indicator columns are written in place on it. -/
def EN.mobilityindicators_state (eng : Reproj) (h : Heap)
    (districtsR tripsR : Nat) (pc dc sc ec : String) :
    Except PyErr Nat × Heap :=
  match EN.CRS eng (h.get districtsR)
      (.str (crsStr (h.get districtsR).crs)) "districts_gdf" false with
  | .error e => (.error e, h)
  | .ok d1 =>
  let (dR, h) := h.alloc d1
  let (dR2, h) := h.alloc (h.get dR)
  match h.writeSeq dR2
      [fun f => f.setColExpr "area_km2" ["geometry"]
        (fun r => Val.div (Val.areaVal (r.get "geometry")) (Val.num 1000000)),
       fun f => f.setColExpr "population_density_km2" [pc, "area_km2"]
        (fun r => Val.div (r.get pc) (r.get "area_km2"))] with
  | (.error e, h) => (.error e, h)
  | (.ok _, h) =>
  match groupSizes (h.get tripsR) sc with
  | .error e => (.error e, h)
  | .ok sg =>
  match groupSizes (h.get tripsR) ec with
  | .error e => (.error e, h)
  | .ok eg =>
  match (do
      let mi ← (h.get dR2).setIndex dc
      let msel ← mi.select ["geometry", "area_km2", pc, "population_density_km2"]
      let mj1 ← msel.joinCounts "trips_started" sg
      let mj2 ← mj1.joinCounts "trips_ended" eg
      pure mj2.fillna0) with
  | .error e => (.error e, h)
  | .ok m0 =>
  let (mR, h) := h.alloc m0
  match h.writeSeq mR
      [fun f => f.setColExpr "net_trips" ["trips_ended", "trips_started"]
        (fun r => Val.sub (r.get "trips_ended") (r.get "trips_started")),
       fun f => f.setColExpr "total_trips" ["trips_started", "trips_ended"]
        (fun r => Val.add (r.get "trips_started") (r.get "trips_ended")),
       fun f => f.setColExpr "trips_started_per_km2" ["trips_started", "area_km2"]
        (fun r => Val.div (r.get "trips_started") (r.get "area_km2")),
       fun f => f.setColExpr "trips_ended_per_km2" ["trips_ended", "area_km2"]
        (fun r => Val.div (r.get "trips_ended") (r.get "area_km2")),
       fun f => f.setColExpr "net_trips_per_km2" ["net_trips", "area_km2"]
        (fun r => Val.div (r.get "net_trips") (r.get "area_km2")),
       fun f => f.setColExpr "total_trips_per_km2" ["total_trips", "area_km2"]
        (fun r => Val.div (r.get "total_trips") (r.get "area_km2")),
       fun f => f.setColExpr "trips_started_per_capita" ["trips_started", pc]
        (fun r => Val.div (r.get "trips_started") (r.get pc)),
       fun f => f.setColExpr "trips_ended_per_capita" ["trips_ended", pc]
        (fun r => Val.div (r.get "trips_ended") (r.get pc)),
       fun f => f.setColExpr "net_trips_per_capita" ["net_trips", pc]
        (fun r => Val.div (r.get "net_trips") (r.get pc)),
       fun f => f.setColExpr "total_trips_per_capita" ["total_trips", pc]
        (fun r => Val.div (r.get "total_trips") (r.get pc))] with
  | (.error e, h) => (.error e, h)
  | (.ok _, h) => (.ok mR, h)

/-- Heap form of `EN.buildingindicators`: the two `.copy()` calls and the CRS
results allocate; the building-area column is written in place on the
buildings copy; `merge` builds a fresh table; the fill and indicator columns
are written in place on it; `set_index` builds the returned table. -/
def EN.buildingindicators_state (eng : Reproj) (h : Heap)
    (buildingsR districtsR : Nat) (dc : String) : Except PyErr Nat × Heap :=
  let (bR, h) := h.alloc (h.get buildingsR)
  let (dR, h) := h.alloc (h.get districtsR)
  if dc ∉ (h.get bR).cols then
    (.error (.keyError s!"{dc} is missing in buildings_gdf."), h)
  else if dc ∉ (h.get dR).cols then
    (.error (.keyError s!"{dc} is missing in districts_gdf."), h)
  else
    match EN.CRS eng (h.get dR) (.str "EPSG:25833") "districts_gdf" false with
    | .error e => (.error e, h)
    | .ok dd =>
    let (dR2, h) := h.alloc dd
    match EN.CRS eng (h.get bR) (.str "EPSG:25833") "buildings_gdf" false with
    | .error e => (.error e, h)
    | .ok bb =>
    let (bR2, h) := h.alloc bb
    match h.writeSeq bR2
        [fun f => f.setColExpr "area_m2" ["geometry"]
          (fun r => Val.areaVal (r.get "geometry"))] with
    | (.error e, h) => (.error e, h)
    | (.ok _, h) =>
    match groupAgg (h.get bR2) dc "antall_bygninger" "bygning_areal_m2" "area_m2" with
    | .error e => (.error e, h)
    | .ok agg =>
    match (h.get dR2).mergeLeft agg dc with
    | .error e => (.error e, h)
    | .ok dm =>
    let (dR3, h) := h.alloc dm
    match h.writeSeq dR3
        [fun f => f.fillnaCols ["num_buildings", "building_area_m2"],
         fun f => f.setColExpr "area_m2" ["geometry"]
          (fun r => Val.areaVal (r.get "geometry")),
         fun f => f.setColExpr "area_km2" ["geometry"]
          (fun r => Val.div (Val.areaVal (r.get "geometry")) (Val.num 1000000)),
         fun f => f.setColExpr "buildings_per_km2" ["num_buildings", "area_km2"]
          (fun r => Val.div (r.get "num_buildings") (r.get "area_km2")),
         fun f => f.setColExpr "built_up_area_percent" ["building_area_m2", "area_m2"]
          (fun r => Val.mul (Val.div (r.get "building_area_m2") (r.get "area_m2")) (Val.num 100)),
         fun f => .ok (f.setColScalar "avg_building_area_m2" (Val.num 0)),
         fun f => f.setColMasked "avg_building_area_m2"
          ["num_buildings", "building_area_m2"]
          (fun r => (r.get "num_buildings").gtZero)
          (fun r => Val.div (r.get "building_area_m2") (r.get "num_buildings"))] with
    | (.error e, h) => (.error e, h)
    | (.ok _, h) =>
    match (h.get dR3).setIndex dc with
    | .error e => (.error e, h)
    | .ok res =>
    let (resR, h) := h.alloc res
    (.ok resR, h)

/-- Heap form of `NO.CRS` (twin of `EN.CRS_state`). -/
def NO.CRS_state (eng : Reproj) (h : Heap) (gdfR : Nat) (target : Val)
    (name : String) (w : Bool) : Except PyErr Nat × Heap :=
  let (copyR, h) := h.alloc (h.get gdfR)
  match NO.CRS eng (h.get copyR) target name w with
  | .error e => (.error e, h)
  | .ok f =>
    let (resR, h) := h.alloc f
    (.ok resR, h)

/-- Heap form of `NO.punkter_gdf` (twin of `EN.points_gdf_state`). -/
def NO.punkter_gdf_state (eng : Reproj) (h : Heap) (tripsR : Nat)
    (lat_col lon_col source_crs target_crs : String) : Except PyErr Nat × Heap :=
  match NO.punkter_gdf eng (h.get tripsR) lat_col lon_col source_crs target_crs with
  | .error e => (.error e, h)
  | .ok f =>
    let (resR, h) := h.alloc f
    (.ok resR, h)

/-- Heap form of `NO.legg_til_bydeler` (twin of `EN.add_district_state`). -/
def NO.legg_til_bydeler_state (eng : Reproj) (h : Heap)
    (tripsR startR sluttR bydelerR : Nat) (dc : String) :
    Except PyErr Nat × Heap :=
  match NO.legg_til_bydeler_core eng (h.get startR) (h.get sluttR) (h.get bydelerR) dc with
  | .error e => (.error e, h)
  | .ok le =>
    let (tR, h) := h.alloc (h.get tripsR)
    match h.writeSeq tR
        [fun f => f.setColVals "start_bydel" le.1,
         fun f => f.setColVals "slutt_bydel" le.2] with
    | (.error e, h) => (.error e, h)
    | (.ok _, h) => (.ok tR, h)

/-- Heap form of `NO.mobilitetsindikatorer` (twin of
`EN.mobilityindicators_state`). -/
def NO.mobilitetsindikatorer_state (eng : Reproj) (h : Heap)
    (bydelerR tripsR : Nat) (pc dc sc ec : String) :
    Except PyErr Nat × Heap :=
  match NO.CRS eng (h.get bydelerR)
      (.str (crsStr (h.get bydelerR).crs)) "bydeler_gdf" false with
  | .error e => (.error e, h)
  | .ok d1 =>
  let (dR, h) := h.alloc d1
  let (dR2, h) := h.alloc (h.get dR)
  match h.writeSeq dR2
      [fun f => f.setColExpr "areal_km2" ["geometry"]
        (fun r => Val.div (Val.areaVal (r.get "geometry")) (Val.num 1000000)),
       fun f => f.setColExpr "befolkningstetthet_km2" [pc, "areal_km2"]
        (fun r => Val.div (r.get pc) (r.get "areal_km2"))] with
  | (.error e, h) => (.error e, h)
  | (.ok _, h) =>
  match groupSizes (h.get tripsR) sc with
  | .error e => (.error e, h)
  | .ok sg =>
  match groupSizes (h.get tripsR) ec with
  | .error e => (.error e, h)
  | .ok eg =>
  match (do
      let mi ← (h.get dR2).setIndex dc
      let msel ← mi.select ["geometry", "areal_km2", pc, "befolkningstetthet_km2"]
      let mj1 ← msel.joinCounts "turer_startet" sg
      let mj2 ← mj1.joinCounts "turer_sluttet" eg
      pure mj2.fillna0) with
  | .error e => (.error e, h)
  | .ok m0 =>
  let (mR, h) := h.alloc m0
  match h.writeSeq mR
      [fun f => f.setColExpr "netto_turer" ["turer_sluttet", "turer_startet"]
        (fun r => Val.sub (r.get "turer_sluttet") (r.get "turer_startet")),
       fun f => f.setColExpr "turer_totalt" ["turer_startet", "turer_sluttet"]
        (fun r => Val.add (r.get "turer_startet") (r.get "turer_sluttet")),
       fun f => f.setColExpr "turer_startet_per_km2" ["turer_startet", "areal_km2"]
        (fun r => Val.div (r.get "turer_startet") (r.get "areal_km2")),
       fun f => f.setColExpr "turer_sluttet_per_km2" ["turer_sluttet", "areal_km2"]
        (fun r => Val.div (r.get "turer_sluttet") (r.get "areal_km2")),
       fun f => f.setColExpr "netto_turer_per_km2" ["netto_turer", "areal_km2"]
        (fun r => Val.div (r.get "netto_turer") (r.get "areal_km2")),
       fun f => f.setColExpr "totalt_turer_per_km2" ["turer_totalt", "areal_km2"]
        (fun r => Val.div (r.get "turer_totalt") (r.get "areal_km2")),
       fun f => f.setColExpr "turer_startet_per_innbygger" ["turer_startet", pc]
        (fun r => Val.div (r.get "turer_startet") (r.get pc)),
       fun f => f.setColExpr "turer_sluttet_per_innbygger" ["turer_sluttet", pc]
        (fun r => Val.div (r.get "turer_sluttet") (r.get pc)),
       fun f => f.setColExpr "netto_turer_per_innbygger" ["netto_turer", pc]
        (fun r => Val.div (r.get "netto_turer") (r.get pc)),
       fun f => f.setColExpr "totalt_turer_per_innbygger" ["turer_totalt", pc]
        (fun r => Val.div (r.get "turer_totalt") (r.get pc))] with
  | (.error e, h) => (.error e, h)
  | (.ok _, h) => (.ok mR, h)

/-- Heap form of `NO.bygningsindikatorer` (twin of
`EN.buildingindicators_state`). -/
def NO.bygningsindikatorer_state (eng : Reproj) (h : Heap)
    (byggR bydelerR : Nat) (dc : String) : Except PyErr Nat × Heap :=
  let (bR, h) := h.alloc (h.get byggR)
  let (dR, h) := h.alloc (h.get bydelerR)
  if dc ∉ (h.get bR).cols then
    (.error (.keyError s!"{dc} mangler i bygninger_gdf."), h)
  else if dc ∉ (h.get dR).cols then
    (.error (.keyError s!"{dc} mangler i bydeler_gdf."), h)
  else
    match NO.CRS eng (h.get dR) (.str "EPSG:25833") "bydeler_gdf" false with
    | .error e => (.error e, h)
    | .ok dd =>
    let (dR2, h) := h.alloc dd
    match NO.CRS eng (h.get bR) (.str "EPSG:25833") "bygninger_gdf" false with
    | .error e => (.error e, h)
    | .ok bb =>
    let (bR2, h) := h.alloc bb
    match h.writeSeq bR2
        [fun f => f.setColExpr "areal_m2" ["geometry"]
          (fun r => Val.areaVal (r.get "geometry"))] with
    | (.error e, h) => (.error e, h)
    | (.ok _, h) =>
    match groupAgg (h.get bR2) dc "antall_bygninger" "bygning_areal_m2" "areal_m2" with
    | .error e => (.error e, h)
    | .ok agg =>
    match (h.get dR2).mergeLeft agg dc with
    | .error e => (.error e, h)
    | .ok dm =>
    let (dR3, h) := h.alloc dm
    match h.writeSeq dR3
        [fun f => f.fillnaCols ["antall_bygninger", "bygning_areal_m2"],
         fun f => f.setColExpr "areal_m2" ["geometry"]
          (fun r => Val.areaVal (r.get "geometry")),
         fun f => f.setColExpr "areal_km2" ["geometry"]
          (fun r => Val.div (Val.areaVal (r.get "geometry")) (Val.num 1000000)),
         fun f => f.setColExpr "bygninger_per_km2" ["antall_bygninger", "areal_km2"]
          (fun r => Val.div (r.get "antall_bygninger") (r.get "areal_km2")),
         fun f => f.setColExpr "bebygd_areal_prosent" ["bygning_areal_m2", "areal_m2"]
          (fun r => Val.mul (Val.div (r.get "bygning_areal_m2") (r.get "areal_m2")) (Val.num 100)),
         fun f => .ok (f.setColScalar "avg_bygning_areal_m2" (Val.num 0)),
         fun f => f.setColMasked "avg_bygning_areal_m2"
          ["antall_bygninger", "bygning_areal_m2"]
          (fun r => (r.get "antall_bygninger").gtZero)
          (fun r => Val.div (r.get "bygning_areal_m2") (r.get "antall_bygninger"))] with
    | (.error e, h) => (.error e, h)
    | (.ok _, h) =>
    match (h.get dR3).setIndex dc with
    | .error e => (.error e, h)
    | .ok res =>
    let (resR, h) := h.alloc res
    (.ok resR, h)

theorem Heap.get_app_one (h : Heap) (f : Frame) {rr : Nat}
    (hrr : rr < h.tabs.length) :
    Heap.get ⟨h.tabs ++ [f]⟩ rr = h.get rr := by
  unfold Heap.get
  exact List.getD_append _ _ _ _ hrr

/-- `EN.CRS` leaves every pre-existing table unchanged. -/
theorem EN.CRS_state_preserves (eng : Reproj) (h : Heap) (gdfR : Nat)
    (target : Val) (name : String) (w : Bool) (rr : Nat)
    (hrr : rr < h.tabs.length) :
    ((EN.CRS_state eng h gdfR target name w).2).get rr = h.get rr := by
  unfold EN.CRS_state
  dsimp only [Heap.alloc]
  split
  · exact Heap.get_app_one h _ hrr
  · rw [Heap.get_app_one ⟨h.tabs ++ [h.get gdfR]⟩ _ (by simp; omega)]
    exact Heap.get_app_one h _ hrr

/-- `NO.CRS` leaves every pre-existing table unchanged. -/
theorem NO.CRS_state_preserves_nor (eng : Reproj) (h : Heap) (gdfR : Nat)
    (target : Val) (name : String) (w : Bool) (rr : Nat)
    (hrr : rr < h.tabs.length) :
    ((NO.CRS_state eng h gdfR target name w).2).get rr = h.get rr := by
  unfold NO.CRS_state
  dsimp only [Heap.alloc]
  split
  · exact Heap.get_app_one h _ hrr
  · rw [Heap.get_app_one ⟨h.tabs ++ [h.get gdfR]⟩ _ (by simp; omega)]
    exact Heap.get_app_one h _ hrr

/-- `EN.points_gdf` leaves every pre-existing table unchanged. -/
theorem EN.points_gdf_state_preserves (eng : Reproj) (h : Heap) (tripsR : Nat)
    (lat_col lon_col source_crs target_crs : String) (rr : Nat)
    (hrr : rr < h.tabs.length) :
    ((EN.points_gdf_state eng h tripsR lat_col lon_col source_crs target_crs).2).get rr
      = h.get rr := by
  unfold EN.points_gdf_state
  dsimp only [Heap.alloc]
  split
  · rfl
  · exact Heap.get_app_one h _ hrr

/-- `NO.punkter_gdf` leaves every pre-existing table unchanged. -/
theorem NO.punkter_gdf_state_preserves (eng : Reproj) (h : Heap) (tripsR : Nat)
    (lat_col lon_col source_crs target_crs : String) (rr : Nat)
    (hrr : rr < h.tabs.length) :
    ((NO.punkter_gdf_state eng h tripsR lat_col lon_col source_crs target_crs).2).get rr
      = h.get rr := by
  unfold NO.punkter_gdf_state
  dsimp only [Heap.alloc]
  split
  · rfl
  · exact Heap.get_app_one h _ hrr

/-- `EN.add_district` writes only the fresh copy of the trip table. -/
theorem EN.add_district_state_preserves (eng : Reproj) (h : Heap)
    (tripsR startR endR districtsR : Nat) (dc : String) (rr : Nat)
    (hrr : rr < h.tabs.length) :
    ((EN.add_district_state eng h tripsR startR endR districtsR dc).2).get rr
      = h.get rr := by
  unfold EN.add_district_state
  split
  · rfl
  · dsimp only [Heap.alloc]
    split <;> rename_i heq <;>
    · have h2 := congrArg Prod.snd heq
      dsimp at h2
      rw [← h2, Heap.writeSeq_preserves _ _ _ _ (Nat.ne_of_lt hrr)]
      exact Heap.get_app_one h _ hrr

/-- `NO.legg_til_bydeler` writes only the fresh copy of the trip table. -/
theorem NO.legg_til_bydeler_state_preserves (eng : Reproj) (h : Heap)
    (tripsR startR sluttR bydelerR : Nat) (dc : String) (rr : Nat)
    (hrr : rr < h.tabs.length) :
    ((NO.legg_til_bydeler_state eng h tripsR startR sluttR bydelerR dc).2).get rr
      = h.get rr := by
  unfold NO.legg_til_bydeler_state
  split
  · rfl
  · dsimp only [Heap.alloc]
    split <;> rename_i heq <;>
    · have h2 := congrArg Prod.snd heq
      dsimp at h2
      rw [← h2, Heap.writeSeq_preserves _ _ _ _ (Nat.ne_of_lt hrr)]
      exact Heap.get_app_one h _ hrr

/-- `EN.mobilityindicators` writes only its fresh local tables (the districts
copy and the joined indicator table). -/
theorem EN.mobilityindicators_state_preserves (eng : Reproj) (h : Heap)
    (districtsR tripsR : Nat) (pc dc sc ec : String) (rr : Nat)
    (hrr : rr < h.tabs.length) :
    ((EN.mobilityindicators_state eng h districtsR tripsR pc dc sc ec).2).get rr
      = h.get rr := by
  unfold EN.mobilityindicators_state
  split
  · rfl
  · rename_i d1 _
    dsimp only [Heap.alloc]
    split
    · rename_i heq
      have h2 := congrArg Prod.snd heq
      dsimp at h2
      rw [← h2, Heap.writeSeq_preserves _ _ _ _ (by simp; omega)]
      rw [Heap.get_app_one ⟨h.tabs ++ [d1]⟩ _ (by simp; omega)]
      exact Heap.get_app_one h _ hrr
    · rename_i h1 heq
      have h2 := congrArg Prod.snd heq
      dsimp at h2
      have hpres : h1.get rr = h.get rr := by
        rw [← h2, Heap.writeSeq_preserves _ _ _ _ (by simp; omega)]
        rw [Heap.get_app_one ⟨h.tabs ++ [d1]⟩ _ (by simp; omega)]
        exact Heap.get_app_one h _ hrr
      have hlen : h.tabs.length ≤ h1.tabs.length := by
        rw [← h2, Heap.writeSeq_len]
        simp
      split
      · exact hpres
      split
      · exact hpres
      split
      · exact hpres
      split <;> rename_i heq2 <;>
      · have h4 := congrArg Prod.snd heq2
        dsimp at h4
        rw [← h4, Heap.writeSeq_preserves _ _ _ _ (by omega)]
        rw [Heap.get_app_one h1 _ (by omega)]
        exact hpres

/-- `NO.mobilitetsindikatorer` writes only its fresh local tables. -/
theorem NO.mobilitetsindikatorer_state_preserves (eng : Reproj) (h : Heap)
    (bydelerR tripsR : Nat) (pc dc sc ec : String) (rr : Nat)
    (hrr : rr < h.tabs.length) :
    ((NO.mobilitetsindikatorer_state eng h bydelerR tripsR pc dc sc ec).2).get rr
      = h.get rr := by
  unfold NO.mobilitetsindikatorer_state
  split
  · rfl
  · rename_i d1 _
    dsimp only [Heap.alloc]
    split
    · rename_i heq
      have h2 := congrArg Prod.snd heq
      dsimp at h2
      rw [← h2, Heap.writeSeq_preserves _ _ _ _ (by simp; omega)]
      rw [Heap.get_app_one ⟨h.tabs ++ [d1]⟩ _ (by simp; omega)]
      exact Heap.get_app_one h _ hrr
    · rename_i h1 heq
      have h2 := congrArg Prod.snd heq
      dsimp at h2
      have hpres : h1.get rr = h.get rr := by
        rw [← h2, Heap.writeSeq_preserves _ _ _ _ (by simp; omega)]
        rw [Heap.get_app_one ⟨h.tabs ++ [d1]⟩ _ (by simp; omega)]
        exact Heap.get_app_one h _ hrr
      have hlen : h.tabs.length ≤ h1.tabs.length := by
        rw [← h2, Heap.writeSeq_len]
        simp
      split
      · exact hpres
      split
      · exact hpres
      split
      · exact hpres
      split <;> rename_i heq2 <;>
      · have h4 := congrArg Prod.snd heq2
        dsimp at h4
        rw [← h4, Heap.writeSeq_preserves _ _ _ _ (by omega)]
        rw [Heap.get_app_one h1 _ (by omega)]
        exact hpres

/-- `EN.buildingindicators` writes only its fresh local tables (the two
copies and the merged table). -/
theorem EN.buildingindicators_state_preserves (eng : Reproj) (h : Heap)
    (buildingsR districtsR : Nat) (dc : String) (rr : Nat)
    (hrr : rr < h.tabs.length) :
    ((EN.buildingindicators_state eng h buildingsR districtsR dc).2).get rr
      = h.get rr := by
  unfold EN.buildingindicators_state
  dsimp only [Heap.alloc]
  have g2 : ∀ f1 f2 : Frame, Heap.get ⟨(h.tabs ++ [f1]) ++ [f2]⟩ rr = h.get rr := by
    intro f1 f2
    rw [Heap.get_app_one ⟨h.tabs ++ [f1]⟩ _ (by simp; omega)]
    exact Heap.get_app_one h _ hrr
  have g3 : ∀ f1 f2 f3 : Frame,
      Heap.get ⟨((h.tabs ++ [f1]) ++ [f2]) ++ [f3]⟩ rr = h.get rr := by
    intro f1 f2 f3
    rw [Heap.get_app_one ⟨(h.tabs ++ [f1]) ++ [f2]⟩ _ (by simp; omega)]
    exact g2 f1 f2
  have g4 : ∀ f1 f2 f3 f4 : Frame,
      Heap.get ⟨(((h.tabs ++ [f1]) ++ [f2]) ++ [f3]) ++ [f4]⟩ rr = h.get rr := by
    intro f1 f2 f3 f4
    rw [Heap.get_app_one ⟨((h.tabs ++ [f1]) ++ [f2]) ++ [f3]⟩ _ (by simp; omega)]
    exact g3 f1 f2 f3
  split
  · exact g2 _ _
  split
  · exact g2 _ _
  split
  · exact g2 _ _
  split
  · exact g3 _ _ _
  split
  · rename_i heq
    have hq := congrArg Prod.snd heq
    dsimp at hq
    rw [← hq, Heap.writeSeq_preserves _ _ _ _ (by simp; omega)]
    exact g4 _ _ _ _
  · rename_i h1 heq
    have hq := congrArg Prod.snd heq
    dsimp at hq
    have hpres1 : h1.get rr = h.get rr := by
      rw [← hq, Heap.writeSeq_preserves _ _ _ _ (by simp; omega)]
      exact g4 _ _ _ _
    have hlen1 : h.tabs.length ≤ h1.tabs.length := by
      rw [← hq, Heap.writeSeq_len]
      simp
    split
    · exact hpres1
    split
    · exact hpres1
    split
    · rename_i heq2
      have hq2 := congrArg Prod.snd heq2
      dsimp at hq2
      rw [← hq2, Heap.writeSeq_preserves _ _ _ _ (by omega)]
      rw [Heap.get_app_one h1 _ (by omega)]
      exact hpres1
    · rename_i h3 heq2
      have hq2 := congrArg Prod.snd heq2
      dsimp at hq2
      have hpres3 : h3.get rr = h.get rr := by
        rw [← hq2, Heap.writeSeq_preserves _ _ _ _ (by omega)]
        rw [Heap.get_app_one h1 _ (by omega)]
        exact hpres1
      have hlen3 : h.tabs.length ≤ h3.tabs.length := by
        rw [← hq2, Heap.writeSeq_len]
        simp
        omega
      split
      · exact hpres3
      rw [Heap.get_app_one h3 _ (by omega)]
      exact hpres3

/-- `NO.bygningsindikatorer` writes only its fresh local tables. -/
theorem NO.bygningsindikatorer_state_preserves (eng : Reproj) (h : Heap)
    (byggR bydelerR : Nat) (dc : String) (rr : Nat)
    (hrr : rr < h.tabs.length) :
    ((NO.bygningsindikatorer_state eng h byggR bydelerR dc).2).get rr
      = h.get rr := by
  unfold NO.bygningsindikatorer_state
  dsimp only [Heap.alloc]
  have g2 : ∀ f1 f2 : Frame, Heap.get ⟨(h.tabs ++ [f1]) ++ [f2]⟩ rr = h.get rr := by
    intro f1 f2
    rw [Heap.get_app_one ⟨h.tabs ++ [f1]⟩ _ (by simp; omega)]
    exact Heap.get_app_one h _ hrr
  have g3 : ∀ f1 f2 f3 : Frame,
      Heap.get ⟨((h.tabs ++ [f1]) ++ [f2]) ++ [f3]⟩ rr = h.get rr := by
    intro f1 f2 f3
    rw [Heap.get_app_one ⟨(h.tabs ++ [f1]) ++ [f2]⟩ _ (by simp; omega)]
    exact g2 f1 f2
  have g4 : ∀ f1 f2 f3 f4 : Frame,
      Heap.get ⟨(((h.tabs ++ [f1]) ++ [f2]) ++ [f3]) ++ [f4]⟩ rr = h.get rr := by
    intro f1 f2 f3 f4
    rw [Heap.get_app_one ⟨((h.tabs ++ [f1]) ++ [f2]) ++ [f3]⟩ _ (by simp; omega)]
    exact g3 f1 f2 f3
  split
  · exact g2 _ _
  split
  · exact g2 _ _
  split
  · exact g2 _ _
  split
  · exact g3 _ _ _
  split
  · rename_i heq
    have hq := congrArg Prod.snd heq
    dsimp at hq
    rw [← hq, Heap.writeSeq_preserves _ _ _ _ (by simp; omega)]
    exact g4 _ _ _ _
  · rename_i h1 heq
    have hq := congrArg Prod.snd heq
    dsimp at hq
    have hpres1 : h1.get rr = h.get rr := by
      rw [← hq, Heap.writeSeq_preserves _ _ _ _ (by simp; omega)]
      exact g4 _ _ _ _
    have hlen1 : h.tabs.length ≤ h1.tabs.length := by
      rw [← hq, Heap.writeSeq_len]
      simp
    split
    · exact hpres1
    split
    · exact hpres1
    split
    · rename_i heq2
      have hq2 := congrArg Prod.snd heq2
      dsimp at hq2
      rw [← hq2, Heap.writeSeq_preserves _ _ _ _ (by omega)]
      rw [Heap.get_app_one h1 _ (by omega)]
      exact hpres1
    · rename_i h3 heq2
      have hq2 := congrArg Prod.snd heq2
      dsimp at hq2
      have hpres3 : h3.get rr = h.get rr := by
        rw [← hq2, Heap.writeSeq_preserves _ _ _ _ (by omega)]
        rw [Heap.get_app_one h1 _ (by omega)]
        exact hpres1
      have hlen3 : h.tabs.length ≤ h3.tabs.length := by
        rw [← hq2, Heap.writeSeq_len]
        simp
        omega
      split
      · exact hpres3
      rw [Heap.get_app_one h3 _ (by omega)]
      exact hpres3

/-- C7: no operation mutates a caller-supplied table. In the heap model —
where each function performs exactly the source's `.copy()`-style
allocations and its in-place `table[col] = ...` writes — every call to
`CRS`, `points_gdf`, `add_district`, `mobilityindicators` or
`buildingindicators`, and to their Norwegian counterparts, leaves every
pre-existing table (in particular every argument table) unchanged: all
writes target freshly allocated copies. -/
theorem C7_no_argument_mutation :
    (∀ (eng : Reproj) (h : Heap) (gdfR : Nat) (target : Val) (name : String)
        (w : Bool) (rr : Nat), rr < h.tabs.length →
      ((EN.CRS_state eng h gdfR target name w).2).get rr = h.get rr) ∧
    (∀ (eng : Reproj) (h : Heap) (tripsR : Nat) (lat lon src tgt : String)
        (rr : Nat), rr < h.tabs.length →
      ((EN.points_gdf_state eng h tripsR lat lon src tgt).2).get rr = h.get rr) ∧
    (∀ (eng : Reproj) (h : Heap) (tR sR eR dR : Nat) (dc : String) (rr : Nat),
        rr < h.tabs.length →
      ((EN.add_district_state eng h tR sR eR dR dc).2).get rr = h.get rr) ∧
    (∀ (eng : Reproj) (h : Heap) (dR tR : Nat) (pc dc sc ec : String) (rr : Nat),
        rr < h.tabs.length →
      ((EN.mobilityindicators_state eng h dR tR pc dc sc ec).2).get rr = h.get rr) ∧
    (∀ (eng : Reproj) (h : Heap) (bR dR : Nat) (dc : String) (rr : Nat),
        rr < h.tabs.length →
      ((EN.buildingindicators_state eng h bR dR dc).2).get rr = h.get rr) ∧
    (∀ (eng : Reproj) (h : Heap) (gdfR : Nat) (target : Val) (name : String)
        (w : Bool) (rr : Nat), rr < h.tabs.length →
      ((NO.CRS_state eng h gdfR target name w).2).get rr = h.get rr) ∧
    (∀ (eng : Reproj) (h : Heap) (tripsR : Nat) (lat lon src tgt : String)
        (rr : Nat), rr < h.tabs.length →
      ((NO.punkter_gdf_state eng h tripsR lat lon src tgt).2).get rr = h.get rr) ∧
    (∀ (eng : Reproj) (h : Heap) (tR sR eR dR : Nat) (dc : String) (rr : Nat),
        rr < h.tabs.length →
      ((NO.legg_til_bydeler_state eng h tR sR eR dR dc).2).get rr = h.get rr) ∧
    (∀ (eng : Reproj) (h : Heap) (dR tR : Nat) (pc dc sc ec : String) (rr : Nat),
        rr < h.tabs.length →
      ((NO.mobilitetsindikatorer_state eng h dR tR pc dc sc ec).2).get rr = h.get rr) ∧
    (∀ (eng : Reproj) (h : Heap) (bR dR : Nat) (dc : String) (rr : Nat),
        rr < h.tabs.length →
      ((NO.bygningsindikatorer_state eng h bR dR dc).2).get rr = h.get rr) :=
  ⟨fun eng h g t n w rr hrr => EN.CRS_state_preserves eng h g t n w rr hrr,
   fun eng h tr la lo sc tc rr hrr =>
     EN.points_gdf_state_preserves eng h tr la lo sc tc rr hrr,
   fun eng h tR sR eR dR dc rr hrr =>
     EN.add_district_state_preserves eng h tR sR eR dR dc rr hrr,
   fun eng h dR tR pc dc sc ec rr hrr =>
     EN.mobilityindicators_state_preserves eng h dR tR pc dc sc ec rr hrr,
   fun eng h bR dR dc rr hrr =>
     EN.buildingindicators_state_preserves eng h bR dR dc rr hrr,
   fun eng h g t n w rr hrr => NO.CRS_state_preserves_nor eng h g t n w rr hrr,
   fun eng h tr la lo sc tc rr hrr =>
     NO.punkter_gdf_state_preserves eng h tr la lo sc tc rr hrr,
   fun eng h tR sR eR dR dc rr hrr =>
     NO.legg_til_bydeler_state_preserves eng h tR sR eR dR dc rr hrr,
   fun eng h dR tR pc dc sc ec rr hrr =>
     NO.mobilitetsindikatorer_state_preserves eng h dR tR pc dc sc ec rr hrr,
   fun eng h bR dR dc rr hrr =>
     NO.bygningsindikatorer_state_preserves eng h bR dR dc rr hrr⟩

/-- C7 witness: on a concrete heap holding the example district and trip
tables, a full `mobilityindicators` call leaves the caller's district table
(reference 0) exactly as it was. -/
theorem C7_no_argument_mutation_witness :
    ((EN.mobilityindicators_state engId ⟨[districtsEx, tripsEx]⟩ 0 1
        "befolkning_2024" "bydel" "start_district" "end_district").2).get 0 =
      Heap.get ⟨[districtsEx, tripsEx]⟩ 0 :=
  C7_no_argument_mutation.2.2.2.1 engId ⟨[districtsEx, tripsEx]⟩ 0 1
    "befolkning_2024" "bydel" "start_district" "end_district" 0 (by decide)
